import Mathlib

/-!
# Order service: usecase layer

A shallow embedding of `order/usecase/order-usecase.go` together with the
data model of `models/order.go` and the `order.Repository` interface of
`order/repository.go`.

Conventions of the embedding.

* A Go `error` is an `Option String`: `none` is the nil error and `some m`
  is a non-nil error whose `Error()` text is `m` (the HTTP layer of the
  service tells errors apart by that text).
* A Go pointer result `*T` is an `Option T`, `none` being the nil pointer.
  A slice result is an `Option (List T)`, `none` being the nil slice.
* A Go `(T, error)` result is a pair.
* Go `int` is the 64 bit two's complement integer; it is carried by `Int`
  and every arithmetic result is reduced with `wrapInt`.
* The repository is an arbitrary implementation of the interface acting on
  a store of type `σ`; every call made through the interface is appended to
  a call log, so that the number and arguments of calls can be stated.
* A run-time panic (nil dereference, index out of range) is an explicit
  outcome.
-/

namespace OrderService

/-! ## Data model (`models/order.go`) -/

/-- The record `models.Order`; `bson.ObjectId` is a Go string type. -/
structure Order where
  ID : String
  Distance : Int
  Status : String
deriving DecidableEq, Repr

/-- The record `models.OrderRequest`. -/
structure OrderRequest where
  Origin : List String
  Destination : List String
deriving DecidableEq, Repr

/-- A Go `error` value, identified by its message; `none` is nil. -/
abbrev GoError := Option String

/-- The result of running a Go function body: a normal return or a panic. -/
inductive Outcome (α : Type) where
  | returned (a : α)
  | panicked
deriving DecidableEq, Repr

/-! ## Go `int` arithmetic -/

/-- Reduction of an integer to the 64 bit two's complement range. -/
def wrapInt (x : Int) : Int := (x + 2 ^ 63) % 2 ^ 64 - 2 ^ 63

/-- Go `a - b` on `int`. -/
def subInt (a b : Int) : Int := wrapInt (a - b)

/-- Go `a * b` on `int`. -/
def mulInt (a b : Int) : Int := wrapInt (a * b)

/-! ## `strconv.Atoi` (Go standard library) -/

/-- The two error kinds of `strconv.NumError`. -/
inductive NumError where
  | errSyntax
  | errRange
deriving DecidableEq, Repr

/-- The largest `uint64`. -/
def maxUint64 : Nat := 2 ^ 64 - 1

/-- The digit loop of `strconv.ParseUint(s, 10, 64)`: a character that is not
a decimal digit is a syntax error with value 0, an overflow of `uint64` is a
range error with value `maxUint64`; whichever comes first is reported. -/
def parseUintLoop : List Char → Nat → Nat × Option NumError
  | [], n => (n, none)
  | c :: cs, n =>
    if 48 ≤ c.toNat ∧ c.toNat ≤ 57 then
      if n ≥ maxUint64 / 10 + 1 then (maxUint64, some NumError.errRange)
      else
        let n1 := n * 10 + (c.toNat - 48)
        if n1 > maxUint64 then (maxUint64, some NumError.errRange)
        else parseUintLoop cs n1
    else (0, some NumError.errSyntax)

/-- The function `strconv.ParseUint(s, 10, 64)`. -/
def ParseUint (s : List Char) : Nat × Option NumError :=
  match s with
  | [] => (0, some NumError.errSyntax)
  | _ => parseUintLoop s 0

/-- The function `strconv.ParseInt(s, 10, 0)` with 64 bit `int`. -/
def ParseInt (s : List Char) : Int × Option NumError :=
  match s with
  | [] => (0, some NumError.errSyntax)
  | c :: cs =>
    let neg : Bool := c = '-'
    let digits := if c = '+' ∨ c = '-' then cs else s
    match ParseUint digits with
    | (_, some NumError.errSyntax) => (0, some NumError.errSyntax)
    | (un, _) =>
      if ¬ neg ∧ un ≥ 2 ^ 63 then (2 ^ 63 - 1, some NumError.errRange)
      else if neg ∧ un > 2 ^ 63 then (-(2 ^ 63), some NumError.errRange)
      else (if neg then -(un : Int) else (un : Int), none)

/-- The function `strconv.Atoi`.  Its fast path for short inputs computes the
same value and error as `ParseInt(s, 10, 0)`, which is what is embedded. -/
def Atoi (s : String) : Int × Option NumError := ParseInt s.data

/-! ## The repository interface (`order/repository.go`) -/

/-- An implementation of `order.Repository` over a store of type `σ`. -/
structure Repository (σ : Type) where
  FetchByID : String → σ → (Option Order × GoError) × σ
  FetchByRange : Int → Int → σ → (Option (List Order) × GoError) × σ
  Store : Order → σ → (Option Order × GoError) × σ
  UpdateByID : Order → σ → GoError × σ

/-- A call made through the repository interface, with its arguments. -/
inductive RepoCall where
  | fetchByID (id : String)
  | fetchByRange (skip limit : Int)
  | store (order : Order)
  | updateByID (order : Order)
deriving DecidableEq, Repr

/-- The state threaded through the usecase: the store behind the repository
and the log of repository calls made so far, oldest first. -/
structure World (σ : Type) where
  store : σ
  calls : List RepoCall

/-- A logged `FetchByID` call. -/
def callFetchByID {σ : Type} (r : Repository σ) (id : String) (w : World σ) :
    (Option Order × GoError) × World σ :=
  ((r.FetchByID id w.store).1,
    { store := (r.FetchByID id w.store).2, calls := w.calls ++ [RepoCall.fetchByID id] })

/-- A logged `FetchByRange` call. -/
def callFetchByRange {σ : Type} (r : Repository σ) (skip limit : Int) (w : World σ) :
    (Option (List Order) × GoError) × World σ :=
  ((r.FetchByRange skip limit w.store).1,
    { store := (r.FetchByRange skip limit w.store).2,
      calls := w.calls ++ [RepoCall.fetchByRange skip limit] })

/-- A logged `Store` call. -/
def callStore {σ : Type} (r : Repository σ) (o : Order) (w : World σ) :
    (Option Order × GoError) × World σ :=
  ((r.Store o w.store).1,
    { store := (r.Store o w.store).2, calls := w.calls ++ [RepoCall.store o] })

/-- A logged `UpdateByID` call. -/
def callUpdateByID {σ : Type} (r : Repository σ) (o : Order) (w : World σ) :
    GoError × World σ :=
  ((r.UpdateByID o w.store).1,
    { store := (r.UpdateByID o w.store).2, calls := w.calls ++ [RepoCall.updateByID o] })

/-! ## The usecase (`order/usecase/order-usecase.go`) -/

/-- The record `OrderUsecase`. -/
structure OrderUsecase (σ : Type) where
  orderRepository : Repository σ

/-- The constructor `NewOrderUsecase`. -/
def NewOrderUsecase {σ : Type} (r : Repository σ) : OrderUsecase σ :=
  { orderRepository := r }

def StatusUnassigned : String := "UNASSIGNED"
def StatusTaken : String := "TAKEN"
def StatusSuccess : String := "SUCCESS"

/-- The error text of the status check of `AssignByID`. -/
def errOnlyAssign : String :=
  "This API route only supports assigning of orders. Please provide requested status as TAKEN"

/-- The error text of `AssignByID` for an order that is not unassigned. -/
def errAlreadyAssigned : String := "Order is already assigned"

/-- A Go `map[string]string`, as an association list. -/
abbrev StringMap := List (String × String)

/-- The method `OrderUsecase.AssignByID`. -/
def OrderUsecase.AssignByID {σ : Type} (ou : OrderUsecase σ) (id status : String)
    (w : World σ) : Outcome (Option StringMap × GoError) × World σ :=
  if status = "" ∨ status ≠ StatusTaken then
    (Outcome.returned (none, some errOnlyAssign), w)
  else
    match callFetchByID ou.orderRepository id w with
    | ((_, some err), w1) => (Outcome.returned (none, some err), w1)
    | ((none, none), w1) => (Outcome.panicked, w1)
    | ((some order, none), w1) =>
      if order.Status ≠ StatusUnassigned then
        (Outcome.returned (none, some errAlreadyAssigned), w1)
      else
        match callUpdateByID ou.orderRepository { order with Status := StatusTaken } w1 with
        | (some err, w2) => (Outcome.returned (none, some err), w2)
        | (none, w2) => (Outcome.returned (some [("status", StatusSuccess)], none), w2)

/-! ### Configuration -/

/-- The process environment as read by `os.Getenv`: an unset variable reads
as the empty string. -/
abbrev Env := String → String

/-- The function `pageSize`. -/
def pageSize (env : Env) : String :=
  if (env "PAGE_SIZE").length = 0 then "10" else env "PAGE_SIZE"

/-- The method `OrderUsecase.FetchByRange`. -/
def OrderUsecase.FetchByRange {σ : Type} (ou : OrderUsecase σ) (env : Env) (page limit : Int)
    (w : World σ) : (Option (List Order) × GoError) × World σ :=
  let pageSizeEnv := pageSize env
  let pageSize := (Atoi pageSizeEnv).1
  if limit = 0 then
    ((some [], none), w)
  else
    let limit := if limit > pageSize then pageSize else limit
    callFetchByRange ou.orderRepository (mulInt (subInt page 1) pageSize) limit w

/-! ### The distance lookup -/

/-- The record `maps.DistanceMatrixElement` of the Google Maps client library,
with the fields the usecase reads: `Status` and `Distance.Meters`. -/
structure DistanceMatrixElement where
  Status : String
  Meters : Int
deriving DecidableEq, Repr

/-- The record `maps.DistanceMatrixElementsRow`: a slice of element pointers. -/
structure DistanceMatrixElementsRow where
  Elements : List (Option DistanceMatrixElement)
deriving DecidableEq, Repr

/-- The record `maps.DistanceMatrixResponse`. -/
structure DistanceMatrixResponse where
  Rows : List DistanceMatrixElementsRow
deriving DecidableEq, Repr

/-- The record `maps.DistanceMatrixRequest`, with the fields the usecase sets. -/
structure DistanceMatrixRequest where
  Origins : List String
  Destinations : List String
deriving DecidableEq, Repr

/-- The Google Maps client library as seen by the usecase: `NewClient` applied
to the API key and the base URL, and `DistanceMatrix` applied to a client and a
request.  `κ` is the type of client handles. -/
structure MapsLibrary (κ : Type) where
  NewClient : String → String → κ × GoError
  DistanceMatrix : κ → DistanceMatrixRequest → Option DistanceMatrixResponse × GoError

/-- The error text set by the deferred function of
`getDistanceFromExternalService` after a recovered panic. -/
def errDistanceFormat : String :=
  "Unable to fetch distance from Google APIs. Please ensure data is in correct format"

/-- The error text of `getDistanceFromExternalService` for an element status
other than OK, without the status. -/
def errDistanceStatus : String := "Unable to fetch distance from Google APIs, Status : "

/-- Go indexing `xs[i]`: an index out of range panics. -/
def index {α : Type} (xs : List α) (i : Nat) : Outcome α :=
  match xs.get? i with
  | some x => Outcome.returned x
  | none => Outcome.panicked

/-- The expression `xs[0] + "," + xs[1]` on a slice of strings. -/
def joinCoordinates (xs : List String) : Outcome String :=
  match index xs 0 with
  | Outcome.panicked => Outcome.panicked
  | Outcome.returned a =>
    match index xs 1 with
    | Outcome.panicked => Outcome.panicked
    | Outcome.returned b => Outcome.returned (a ++ "," ++ b)

/-- The expression `resp.Rows[0].Elements[0]` followed by the dereference of
the element pointer. -/
def firstElement (resp : Option DistanceMatrixResponse) : Outcome DistanceMatrixElement :=
  match resp with
  | none => Outcome.panicked
  | some r =>
    match index r.Rows 0 with
    | Outcome.panicked => Outcome.panicked
    | Outcome.returned row =>
      match index row.Elements 0 with
      | Outcome.panicked => Outcome.panicked
      | Outcome.returned none => Outcome.panicked
      | Outcome.returned (some e) => Outcome.returned e

/-- The body of `getDistanceFromExternalService` up to its deferred function:
the named results `(distance, err)` on a normal return, or a panic. -/
def getDistanceBody {κ : Type} (maps : MapsLibrary κ) (env : Env)
    (origin destination : List String) : Outcome (Int × GoError) :=
  let apiKey := env "GOOGLE_API_KEY"
  let serverURL := env "GOOGLE_SERVER_URL"
  match maps.NewClient apiKey serverURL with
  | (_, some err) => Outcome.returned (0, some err)
  | (c, none) =>
    match joinCoordinates origin with
    | Outcome.panicked => Outcome.panicked
    | Outcome.returned o =>
      match joinCoordinates destination with
      | Outcome.panicked => Outcome.panicked
      | Outcome.returned d =>
        match maps.DistanceMatrix c { Origins := [o], Destinations := [d] } with
        | (_, some err) => Outcome.returned (0, some err)
        | (resp, none) =>
          match firstElement resp with
          | Outcome.panicked => Outcome.panicked
          | Outcome.returned e =>
            if e.Status ≠ "OK" then
              Outcome.returned (0, some (errDistanceStatus ++ e.Status))
            else
              Outcome.returned (e.Meters, none)

/-- The function `getDistanceFromExternalService`: the body followed by the
deferred function, which recovers a panic and sets `err`; `distance` is
assigned only by the last statement of the body, so it is still 0 then. -/
def getDistanceFromExternalService {κ : Type} (maps : MapsLibrary κ) (env : Env)
    (origin destination : List String) : Int × GoError :=
  match getDistanceBody maps env origin destination with
  | Outcome.returned r => r
  | Outcome.panicked => (0, some errDistanceFormat)

/-- The method `OrderUsecase.Store`, applied to the request `*orderReq`. -/
def OrderUsecase.Store {σ κ : Type} (ou : OrderUsecase σ) (maps : MapsLibrary κ) (env : Env)
    (orderReq : OrderRequest) (w : World σ) : (Option Order × GoError) × World σ :=
  match getDistanceFromExternalService maps env orderReq.Origin orderReq.Destination with
  | (_, some err) => ((none, some err), w)
  | (distance, none) =>
    callStore ou.orderRepository { ID := "", Distance := distance, Status := StatusUnassigned } w

/-! ## The mongo repository (`order/repository/mongo-order.go`)

The repository code is embedded over a model of the `orders` collection it
talks to: the documents in insertion order, with distinct `_id`s enforced on
insert, and a log of the database operations issued. -/

/-- The value of a hexadecimal digit, as accepted by `hex.DecodeString`. -/
def hexValue (c : Char) : Option Nat :=
  if 48 ≤ c.toNat ∧ c.toNat ≤ 57 then some (c.toNat - 48)
  else if 97 ≤ c.toNat ∧ c.toNat ≤ 102 then some (c.toNat - 87)
  else if 65 ≤ c.toNat ∧ c.toNat ≤ 70 then some (c.toNat - 55)
  else none

/-- The function `hex.DecodeString`: two hexadecimal digits per byte; an odd
length or a character that is not a hexadecimal digit is an error (`none`). -/
def hexDecode : List Char → Option (List Char)
  | [] => some []
  | [_] => none
  | h :: l :: rest =>
    match hexValue h, hexValue l, hexDecode rest with
    | some a, some b, some bytes => some (Char.ofNat (16 * a + b) :: bytes)
    | _, _, _ => none

/-- The function `bson.IsObjectIdHex`: the string has 24 bytes and decodes as
hexadecimal. -/
def IsObjectIdHex (s : String) : Bool :=
  decide (s.utf8ByteSize = 24) && (hexDecode s.data).isSome

/-- The function `bson.ObjectIdHex` on a string accepted by `IsObjectIdHex`
(on any other string it panics; the repository calls it only after the check). -/
def ObjectIdHex (s : String) : String :=
  String.mk ((hexDecode s.data).getD [])

/-- An operation issued on the `orders` collection. -/
inductive DBCall where
  | findId (id : String)
  | updateId (id : String) (doc : Order)
  | find (skip limit : Int)
  | insert (doc : Order)
deriving DecidableEq, Repr

/-- The database behind `mongoOrderRepository`: the documents of the `orders`
collection in insertion order, the counter from which object ids are drawn,
and the log of operations issued so far. -/
structure Database where
  docs : List Order
  counter : Nat
  log : List DBCall
deriving DecidableEq, Repr

/-- The behaviour of the driver that the repository code does not determine:
the object id drawn for a counter value (`bson.NewObjectId`), the result of a
skip/limit query over the documents, and the text of the duplicate key error
of an insert. -/
structure Driver where
  NewObjectId : Nat → String
  findAll : Int → Int → List Order → Option (List Order) × GoError
  duplicateKey : String

/-- The query `FindId(id).One`: the first document with that `_id`. -/
def findId (id : String) (docs : List Order) : Option Order :=
  docs.find? (fun o => o.ID = id)

/-- The update `UpdateId(id, doc)` on the documents: the first document with
that `_id` is replaced by `doc`. -/
def replaceId (id : String) (doc : Order) : List Order → List Order
  | [] => []
  | o :: rest => if o.ID = id then doc :: rest else o :: replaceId id doc rest

/-- The zero value of `models.Order`. -/
def zeroOrder : Order := { ID := "", Distance := 0, Status := "" }

/-- The error text of `mgo.ErrNotFound`. -/
def errNotFound : String := "not found"

/-- The method `mongoOrderRepository.FetchByID`. -/
def mongoOrderRepository.FetchByID (id : String) (db : Database) : (Option Order × GoError) × Database :=
  if IsObjectIdHex id ≠ true then
    ((none, some "Invalid Id"), db)
  else
    let db1 := { db with log := db.log ++ [DBCall.findId (ObjectIdHex id)] }
    match findId (ObjectIdHex id) db.docs with
    | some order => ((some order, none), db1)
    | none => ((some zeroOrder, some errNotFound), db1)

/-- The method `mongoOrderRepository.UpdateByID`. -/
def mongoOrderRepository.UpdateByID (order : Order) (db : Database) : GoError × Database :=
  let db1 := { db with log := db.log ++ [DBCall.updateId order.ID order] }
  match findId order.ID db.docs with
  | some _ => (none, { db1 with docs := replaceId order.ID order db.docs })
  | none => (some errNotFound, db1)

/-- The method `mongoOrderRepository.FetchByRange`. -/
def mongoOrderRepository.FetchByRange (drv : Driver) (skip limit : Int) (db : Database) :
    (Option (List Order) × GoError) × Database :=
  (drv.findAll skip limit db.docs, { db with log := db.log ++ [DBCall.find skip limit] })

/-- The method `mongoOrderRepository.Store`: a new object id is drawn and the
document is inserted; the insert fails when the `_id` is already present. -/
def mongoOrderRepository.Store (drv : Driver) (order : Order) (db : Database) :
    (Option Order × GoError) × Database :=
  let order1 := { order with ID := drv.NewObjectId db.counter }
  let db1 := { db with counter := db.counter + 1, log := db.log ++ [DBCall.insert order1] }
  match findId order1.ID db.docs with
  | some _ => ((some order1, some drv.duplicateKey), db1)
  | none => ((some order1, none), { db1 with docs := db.docs ++ [order1] })

/-- The constructor `NewMongoOrderRepository`. -/
def NewMongoOrderRepository (drv : Driver) : Repository Database where
  FetchByID := mongoOrderRepository.FetchByID
  FetchByRange := mongoOrderRepository.FetchByRange drv
  Store := mongoOrderRepository.Store drv
  UpdateByID := mongoOrderRepository.UpdateByID

/-- The database before any order is stored. -/
def emptyDatabase : Database := { docs := [], counter := 0, log := [] }

/-- The usecase over the mongo repository, as `main` wires them. -/
def mongoUsecase (drv : Driver) : OrderUsecase Database :=
  NewOrderUsecase (NewMongoOrderRepository drv)

/-! ## The HTTP handler (`order/delivery/http/order-handler.go`) -/

/-- The interface `order.Usecase` (`order/usecase.go`), over a state `ω`. -/
structure Usecase (ω : Type) where
  AssignByID : String → String → ω → Outcome (Option StringMap × GoError) × ω
  FetchByRange : Int → Int → ω → (Option (List Order) × GoError) × ω
  Store : OrderRequest → ω → (Option Order × GoError) × ω

/-- The record `OrderUsecase` as an implementation of `order.Usecase`, which is
how `NewOrderUsecase` hands it to the handler. -/
def OrderUsecase.toUsecase {σ κ : Type} (ou : OrderUsecase σ) (maps : MapsLibrary κ)
    (env : Env) : Usecase (World σ) where
  AssignByID := ou.AssignByID
  FetchByRange := ou.FetchByRange env
  Store := ou.Store maps env

/-- The parts of `*http.Request` the handler reads: the method, `URL.Path`,
the values of `URL.Query()` for a key (`none` when the key is absent) and the
body. -/
structure Request where
  Method : String
  Path : String
  Query : String → Option (List String)
  Body : String

/-- The JSON decoder of `encoding/json` on a request body, for the two targets
the handler decodes into: a `map[string]string` and a `models.OrderRequest`. -/
structure JSONDecoder where
  decodeMap : String → StringMap × GoError
  decodeOrderRequest : String → OrderRequest × GoError

/-- The value handed to `json.Marshal` for the response body; marshalling
these values does not fail. -/
inductive Payload where
  | object (m : StringMap)
  | objectPointer (m : Option StringMap)
  | orders (l : List Order)
  | orderPointer (o : Option Order)
deriving DecidableEq, Repr

/-- What the handler writes to the `http.ResponseWriter`: the status code, the
`Content-Type` header and the body. -/
structure Response where
  StatusCode : Nat
  ContentType : String
  Body : Payload
deriving DecidableEq, Repr

def StatusOK : Nat := 200
def StatusBadRequest : Nat := 400
def StatusNotFound : Nat := 404
def StatusMethodNotAllowed : Nat := 405

/-- The index expression `m[key]` on a `map[string]string`: the empty string
when the key is absent. -/
def mapIndex (m : StringMap) (key : String) : String :=
  (m.lookup key).getD ""

/-- The function `respondWithError`. -/
def respondWithError (statusCode : Nat) (message : String) : Response :=
  { StatusCode := statusCode,
    ContentType := "application/json; charset=utf-8",
    Body := Payload.object [("error", message)] }

/-- The expression `r.URL.Path[len("/orders/"):]`; the handler is registered
for the pattern `/orders/`, whose 8 bytes are one character each.  A shorter
path makes the slice expression panic. -/
def pathID (path : String) : Outcome String :=
  if path.data.length < 8 then Outcome.panicked
  else Outcome.returned (String.mk (path.data.drop 8))

/-- The method `OrderHttpHandler.patchOrderByID`. -/
def patchOrderByID {ω : Type} (h : Usecase ω) (dec : JSONDecoder) (r : Request) (w : ω) :
    Outcome Response × ω :=
  match pathID r.Path with
  | Outcome.panicked => (Outcome.panicked, w)
  | Outcome.returned id =>
    match dec.decodeMap r.Body with
    | (_, some _) => (Outcome.returned (respondWithError StatusBadRequest "Invalid request payload"), w)
    | (m, none) =>
      match h.AssignByID id (mapIndex m "status") w with
      | (Outcome.panicked, w1) => (Outcome.panicked, w1)
      | (Outcome.returned (_, some err), w1) =>
        if err = "not found" ∨ err = "Invalid Id" then
          (Outcome.returned (respondWithError StatusNotFound err), w1)
        else
          (Outcome.returned (respondWithError StatusBadRequest err), w1)
      | (Outcome.returned (res, none), w1) =>
        (Outcome.returned
          { StatusCode := StatusOK,
            ContentType := "application/json; charset=utf-8",
            Body := Payload.objectPointer res }, w1)

/-- The method `OrderHttpHandler.OrderHandler`. -/
def OrderHandler {ω : Type} (h : Usecase ω) (dec : JSONDecoder) (r : Request) (w : ω) :
    Outcome Response × ω :=
  if r.Method = "PATCH" then patchOrderByID h dec r w
  else (Outcome.returned (respondWithError StatusMethodNotAllowed "Unsupported Request Method"), w)

/-- The method `OrderHttpHandler.getOrdersInRange`. -/
def getOrdersInRange {ω : Type} (h : Usecase ω) (page limit : Int) (w : ω) : Response × ω :=
  match h.FetchByRange page limit w with
  | ((_, some err), w1) => (respondWithError StatusBadRequest err, w1)
  | ((res, none), w1) =>
    ({ StatusCode := StatusOK,
       ContentType := "application/json; charset=utf-8",
       Body := Payload.orders (res.getD []) }, w1)

/-- The statement `if param != nil { val = param[0] }` of `getOrders`: the
default when the key is absent, the first value otherwise; a present key with
no value makes the index expression panic. -/
def paramValue (param : Option (List String)) (defaultVal : String) : Outcome String :=
  match param with
  | none => Outcome.returned defaultVal
  | some values => index values 0

/-- The method `OrderHttpHandler.getOrders`. -/
def getOrders {ω : Type} (h : Usecase ω) (r : Request) (w : ω) : Outcome Response × ω :=
  match paramValue (r.Query "page") "1" with
  | Outcome.panicked => (Outcome.panicked, w)
  | Outcome.returned pageParamVal =>
    match paramValue (r.Query "limit") "10" with
    | Outcome.panicked => (Outcome.panicked, w)
    | Outcome.returned limitParamVal =>
      match Atoi pageParamVal with
      | (_, some _) =>
        (Outcome.returned (respondWithError StatusBadRequest "page parameter should be a number"), w)
      | (page, none) =>
        match Atoi limitParamVal with
        | (_, some _) =>
          (Outcome.returned
            (respondWithError StatusBadRequest "limit parameter should be a number"), w)
        | (limit, none) =>
          ((Outcome.returned (getOrdersInRange h page limit w).1),
            (getOrdersInRange h page limit w).2)

/-- The method `OrderHttpHandler.postOrder`. -/
def postOrder {ω : Type} (h : Usecase ω) (dec : JSONDecoder) (r : Request) (w : ω) :
    Response × ω :=
  match dec.decodeOrderRequest r.Body with
  | (_, some _) => (respondWithError StatusBadRequest "Invalid request payload", w)
  | (orderReq, none) =>
    match h.Store orderReq w with
    | ((_, some err), w1) => (respondWithError StatusBadRequest err, w1)
    | ((res, none), w1) =>
      ({ StatusCode := StatusOK,
         ContentType := "application/json; charset=utf-8",
         Body := Payload.orderPointer res }, w1)

/-- The method `OrderHttpHandler.OrdersHandler`. -/
def OrdersHandler {ω : Type} (h : Usecase ω) (dec : JSONDecoder) (r : Request) (w : ω) :
    Outcome Response × ω :=
  if r.Method = "GET" then getOrders h r w
  else if r.Method = "POST" then
    (Outcome.returned (postOrder h dec r w).1, (postOrder h dec r w).2)
  else (Outcome.returned (respondWithError StatusMethodNotAllowed "Unsupported Request Method"), w)

/-! ## Test doubles

Stand-ins for the collaborators, in the manner of the mocks of
`order-usecase_test.go`; they instantiate the statements below at concrete
inputs. -/

/-- A repository over a trivial store whose `FetchByID` always answers with
`fetched`, whose `Store` assigns a fixed id and whose other calls succeed. -/
def stubRepository (fetched : Option Order × GoError) : Repository Unit where
  FetchByID := fun _ s => (fetched, s)
  FetchByRange := fun _ _ s => ((some [], none), s)
  Store := fun o s => ((some { o with ID := "5c2b2aaf4530558539f91858" }, none), s)
  UpdateByID := fun _ s => (none, s)

/-- A maps library whose `NewClient` rejects an empty API key and whose
`DistanceMatrix` always answers with `answer`. -/
def stubMaps (answer : Option DistanceMatrixResponse × GoError) : MapsLibrary Unit where
  NewClient := fun apiKey _ =>
    if apiKey = "" then ((), some "maps: API Key or Maps for Work credentials missing")
    else ((), none)
  DistanceMatrix := fun _ _ => answer

/-- The environment of the tests: an API key and a page size of 10. -/
def testEnv : Env := fun name =>
  if name = "GOOGLE_API_KEY" then "AIzaNotReallyAnAPIKey"
  else if name = "PAGE_SIZE" then "10"
  else ""

/-- An environment in which only `PAGE_SIZE` is set, to `value`. -/
def pageSizeOnly (value : String) : Env := fun name =>
  if name = "PAGE_SIZE" then value else ""

/-- The empty environment: every variable unset. -/
def emptyEnv : Env := fun _ => ""

/-- The world before any call, over the trivial store. -/
def world0 : World Unit := { store := (), calls := [] }

/-- The order of the tests of `AssignByID`, with a given status. -/
def testOrder (status : String) : Order :=
  { ID := "5c2b2aaf4530558539f91859", Distance := 12345, Status := status }

/-- The distance matrix answer of the tests of `Store`: one row with one
element of the given status and 30539 meters. -/
def testAnswer (status : String) : Option DistanceMatrixResponse × GoError :=
  (some { Rows := [{ Elements := [some { Status := status, Meters := 30539 }] }] }, none)

/-- A repository over a trivial store whose `FetchByID` answers with `fetched`
and whose other calls fail with the error `err`. -/
def failingRepository (fetched : Option Order × GoError) (err : String) : Repository Unit where
  FetchByID := fun _ s => (fetched, s)
  FetchByRange := fun _ _ s => ((some [], some err), s)
  Store := fun _ s => ((some zeroOrder, some err), s)
  UpdateByID := fun _ s => (some err, s)

/-- A driver whose object id for counter value `n` is twelve times the
character with code `48 + n`, and whose query skips and takes by position. -/
def stubDriver : Driver where
  NewObjectId := fun n => String.mk (List.replicate 12 (Char.ofNat (48 + n)))
  findAll := fun skip limit docs => (some ((docs.drop skip.toNat).take limit.toNat), none)
  duplicateKey := "E11000 duplicate key error"

/-- A JSON decoder that answers with `m` for every body decoded into a map. -/
def stubDecoder (m : StringMap × GoError) : JSONDecoder where
  decodeMap := fun _ => m
  decodeOrderRequest := fun _ => ({ Origin := [], Destination := [] }, none)

/-- A `GET /orders` request with the given values of the `page` and `limit`
query parameters. -/
def getRequest (page limit : Option (List String)) : Request where
  Method := "GET"
  Path := "/orders"
  Query := fun key => if key = "page" then page else if key = "limit" then limit else none
  Body := ""

/-- A `PATCH /orders/<id>` request. -/
def patchRequest (id : String) : Request where
  Method := "PATCH"
  Path := "/orders/" ++ id
  Query := fun _ => none
  Body := ""

/-- The world before any call, over the empty database. -/
def mongoWorld0 : World Database := { store := emptyDatabase, calls := [] }

/-! ## Sequences of calls -/

/-- A call of one of the three methods of the usecase. -/
inductive Call where
  | store (orderReq : OrderRequest)
  | fetchByRange (page limit : Int)
  | assignByID (id status : String)
deriving DecidableEq, Repr

/-- The world after one call of the usecase. -/
def step {σ κ : Type} (ou : OrderUsecase σ) (maps : MapsLibrary κ) (env : Env) (c : Call)
    (w : World σ) : World σ :=
  match c with
  | Call.store orderReq => (ou.Store maps env orderReq w).2
  | Call.fetchByRange page limit => (ou.FetchByRange env page limit w).2
  | Call.assignByID id status => (ou.AssignByID id status w).2

/-- The world after a sequence of calls of the usecase, in order. -/
def run {σ κ : Type} (ou : OrderUsecase σ) (maps : MapsLibrary κ) (env : Env) (cs : List Call)
    (w : World σ) : World σ :=
  cs.foldl (fun w c => step ou maps env c w) w

/-- What a call may do to a stored order: ID and Distance are kept, and the
status is kept or goes from UNASSIGNED to TAKEN. -/
def Keeps (before after : Order) : Prop :=
  after.ID = before.ID ∧ after.Distance = before.Distance ∧
    (after.Status = before.Status ∨
      (before.Status = "UNASSIGNED" ∧ after.Status = "TAKEN"))

/-- What a call may do to the stored orders: every order present before is
still there, in place and changed at most as `Keeps` allows, and the orders
added behind them are UNASSIGNED. -/
def Evolves (before after : List Order) : Prop :=
  ∃ kept added, after = kept ++ added ∧ List.Forall₂ Keeps before kept ∧
    ∀ o ∈ added, o.Status = "UNASSIGNED"

/-- The value of a decimal numeral read after the digits with value `n`. -/
def decimalFrom (n : Nat) (digits : List Char) : Nat :=
  digits.foldl (fun acc c => acc * 10 + (c.toNat - 48)) n

/-- The characters of a decimal numeral: decimal digits only. -/
def IsDecimal (digits : List Char) : Prop :=
  ∀ c ∈ digits, 48 ≤ c.toNat ∧ c.toNat ≤ 57

/-- The characters of a hexadecimal numeral. -/
def IsHex (digits : List Char) : Prop :=
  ∀ c ∈ digits, (48 ≤ c.toNat ∧ c.toNat ≤ 57) ∨ (97 ≤ c.toNat ∧ c.toNat ≤ 102) ∨
    (65 ≤ c.toNat ∧ c.toNat ≤ 70)

/-! ## Properties of `AssignByID` -/

/-- The status check of `AssignByID` lets the value TAKEN through. -/
theorem statusTaken_passes : ¬ (StatusTaken = "" ∨ StatusTaken ≠ StatusTaken) := by
  decide

/-- The status check of `AssignByID` rejects every value other than TAKEN. -/
theorem status_rejected {status : String} (h : status ≠ "TAKEN") :
    status = "" ∨ status ≠ StatusTaken :=
  Or.inr h

/-- With the status TAKEN, `AssignByID` is the fetch followed by the rest of
the method: the status check is passed. -/
theorem assignByID_taken_unfold {σ : Type} (ou : OrderUsecase σ) (id : String) (w : World σ) :
    ou.AssignByID id "TAKEN" w =
      match callFetchByID ou.orderRepository id w with
      | ((_, some err), w1) => (Outcome.returned (none, some err), w1)
      | ((none, none), w1) => (Outcome.panicked, w1)
      | ((some order, none), w1) =>
        if order.Status ≠ StatusUnassigned then
          (Outcome.returned (none, some errAlreadyAssigned), w1)
        else
          match callUpdateByID ou.orderRepository { order with Status := StatusTaken } w1 with
          | (some err, w2) => (Outcome.returned (none, some err), w2)
          | (none, w2) => (Outcome.returned (some [("status", StatusSuccess)], none), w2) := by
  have h : ¬ (("TAKEN" : String) = "" ∨ ("TAKEN" : String) ≠ StatusTaken) := statusTaken_passes
  unfold OrderUsecase.AssignByID
  rw [if_neg h]

/-- Claim C1, as amended.  For every id and every requested status other than
exactly TAKEN, `AssignByID` returns a nil result and the error "This API route
only supports assigning of orders. Please provide requested status as TAKEN",
and leaves the world untouched: no repository call is made.  With the status
TAKEN the repository is always consulted (`FetchByID` is the first call), and
that error text is returned only if a repository call itself returned it. -/
theorem assignByID_status_check {σ : Type} (ou : OrderUsecase σ) (id status : String)
    (w : World σ) :
    (status ≠ "TAKEN" →
      ou.AssignByID id status w =
        (Outcome.returned (none, some
          "This API route only supports assigning of orders. Please provide requested status as TAKEN"),
          w)) ∧
    (status = "TAKEN" →
      (∃ rest, (ou.AssignByID id status w).2.calls
          = w.calls ++ RepoCall.fetchByID id :: rest) ∧
      ∀ res, (ou.AssignByID id status w).1 = Outcome.returned (res, some
          "This API route only supports assigning of orders. Please provide requested status as TAKEN") →
        (ou.orderRepository.FetchByID id w.store).1.2 = some
          "This API route only supports assigning of orders. Please provide requested status as TAKEN" ∨
        ∃ o, (ou.orderRepository.FetchByID id w.store).1 = (some o, none) ∧
          (ou.orderRepository.UpdateByID { o with Status := "TAKEN" }
            (ou.orderRepository.FetchByID id w.store).2).1 = some
          "This API route only supports assigning of orders. Please provide requested status as TAKEN") := by
  constructor
  · intro h
    unfold OrderUsecase.AssignByID
    rw [if_pos (status_rejected h)]
    rfl
  · intro h
    subst h
    rw [assignByID_taken_unfold]
    unfold callFetchByID
    rcases hf : ou.orderRepository.FetchByID id w.store with ⟨⟨o, e⟩, s1⟩
    cases e with
    | some err =>
      refine ⟨⟨[], by simp⟩, ?_⟩
      intro res hres
      left
      simp at hres
      simpa using hres.2
    | none =>
      cases o with
      | none =>
        refine ⟨⟨[], by simp⟩, ?_⟩
        intro res hres
        simp at hres
      | some order =>
        by_cases hs : order.Status ≠ StatusUnassigned
        · refine ⟨⟨[], by simp [hs]⟩, ?_⟩
          intro res hres
          simp [hs, errAlreadyAssigned] at hres
        · simp only [hs, if_false]
          unfold callUpdateByID
          rcases hu : ou.orderRepository.UpdateByID { order with Status := StatusTaken } s1
            with ⟨e2, s2⟩
          cases e2 with
          | some err =>
            refine ⟨⟨[RepoCall.updateByID { order with Status := StatusTaken }], by simp⟩, ?_⟩
            intro res hres
            right
            refine ⟨order, rfl, ?_⟩
            have hu2 : ou.orderRepository.UpdateByID { order with Status := "TAKEN" } s1
                = (some err, s2) := hu
            rw [hu2]
            simp at hres
            simpa using hres.2
          | none =>
            refine ⟨⟨[RepoCall.updateByID { order with Status := StatusTaken }], by simp⟩, ?_⟩
            intro res hres
            simp at hres

/-- Claim C1 at concrete inputs: the status RELEIVE is rejected without a
repository call, and with the status TAKEN the repository is consulted. -/
theorem assignByID_status_check_witness :
    ("RELEIVE" : String) ≠ "TAKEN" ∧
    (NewOrderUsecase (stubRepository (some (testOrder "UNASSIGNED"), none))).AssignByID
        "5c2b2aaf4530558539f91859" "RELEIVE" world0 =
      (Outcome.returned (none, some
        "This API route only supports assigning of orders. Please provide requested status as TAKEN"),
        world0) ∧
    ∃ rest, ((NewOrderUsecase (stubRepository (some (testOrder "UNASSIGNED"), none))).AssignByID
        "5c2b2aaf4530558539f91859" "TAKEN" world0).2.calls =
      world0.calls ++ RepoCall.fetchByID "5c2b2aaf4530558539f91859" :: rest :=
  ⟨by decide,
    (assignByID_status_check _ "5c2b2aaf4530558539f91859" "RELEIVE" world0).1 (by decide),
    ((assignByID_status_check _ "5c2b2aaf4530558539f91859" "TAKEN" world0).2 rfl).1⟩

/-- Claim C1 as stated fails in its converse part: with the status TAKEN and a
repository whose `FetchByID` fails with the text of the status-check error,
`AssignByID` returns an error with exactly that text. -/
theorem assignByID_taken_can_return_status_text :
    ((NewOrderUsecase (stubRepository (none, some
        "This API route only supports assigning of orders. Please provide requested status as TAKEN"))).AssignByID
        "5c2b2aaf4530558539f91859" "TAKEN" world0).1 =
      Outcome.returned (none, some
        "This API route only supports assigning of orders. Please provide requested status as TAKEN") := by
  rw [assignByID_taken_unfold]
  rfl

/-- Claim C2.  When `FetchByID` returns an order `o` with status UNASSIGNED and
a nil error, and `UpdateByID` of the order with status TAKEN succeeds,
`AssignByID id "TAKEN"` makes exactly two repository calls, the fetch and one
`UpdateByID` whose argument has the ID and Distance of `o` and status TAKEN,
and returns the map with the single entry status = SUCCESS and a nil error. -/
theorem assignByID_unassigned_success {σ : Type} (ou : OrderUsecase σ) (id : String)
    (w : World σ) (o : Order) (s1 s2 : σ)
    (hfetch : ou.orderRepository.FetchByID id w.store = ((some o, none), s1))
    (hstatus : o.Status = "UNASSIGNED")
    (hupdate : ou.orderRepository.UpdateByID
      { ID := o.ID, Distance := o.Distance, Status := "TAKEN" } s1 = (none, s2)) :
    ou.AssignByID id "TAKEN" w =
      (Outcome.returned (some [("status", "SUCCESS")], none),
        { store := s2,
          calls := w.calls ++ [RepoCall.fetchByID id,
            RepoCall.updateByID { ID := o.ID, Distance := o.Distance, Status := "TAKEN" }] }) := by
  have hs : ¬ (o.Status ≠ StatusUnassigned) := by simp [hstatus, StatusUnassigned]
  have hu : ou.orderRepository.UpdateByID { o with Status := StatusTaken } s1 = (none, s2) :=
    hupdate
  rw [assignByID_taken_unfold]
  simp only [callFetchByID, hfetch, hs, if_false, callUpdateByID, hu]
  simp [StatusSuccess, StatusTaken]

/-- Claim C2 at the input of the test "Successfully assign an order". -/
theorem assignByID_unassigned_success_witness :
    (NewOrderUsecase (stubRepository (some (testOrder "UNASSIGNED"), none))).AssignByID
        "5c2b2aaf4530558539f91859" "TAKEN" world0 =
      (Outcome.returned (some [("status", "SUCCESS")], none),
        { store := (),
          calls := [RepoCall.fetchByID "5c2b2aaf4530558539f91859",
            RepoCall.updateByID
              { ID := "5c2b2aaf4530558539f91859", Distance := 12345, Status := "TAKEN" }] }) :=
  assignByID_unassigned_success
    (NewOrderUsecase (stubRepository (some (testOrder "UNASSIGNED"), none)))
    "5c2b2aaf4530558539f91859" world0 (testOrder "UNASSIGNED") () () rfl rfl rfl

/-- Claim C3.  When `FetchByID` returns an order with a nil error and the
order's status is anything other than UNASSIGNED, `AssignByID id "TAKEN"`
returns a nil result and the error "Order is already assigned"; the fetch is
the only repository call, so `UpdateByID` is not called. -/
theorem assignByID_already_assigned {σ : Type} (ou : OrderUsecase σ) (id : String)
    (w : World σ) (o : Order) (s1 : σ)
    (hfetch : ou.orderRepository.FetchByID id w.store = ((some o, none), s1))
    (hstatus : o.Status ≠ "UNASSIGNED") :
    ou.AssignByID id "TAKEN" w =
      (Outcome.returned (none, some "Order is already assigned"),
        { store := s1, calls := w.calls ++ [RepoCall.fetchByID id] }) := by
  have hs : o.Status ≠ StatusUnassigned := hstatus
  rw [assignByID_taken_unfold]
  simp only [callFetchByID, hfetch]
  rw [if_pos hs]
  rfl

/-- Claim C3 at the input of the test "Return error if order already
assigned". -/
theorem assignByID_already_assigned_witness :
    (testOrder "TAKEN").Status ≠ "UNASSIGNED" ∧
    (NewOrderUsecase (stubRepository (some (testOrder "TAKEN"), none))).AssignByID
        "5c2b2aaf4530558539f91859" "TAKEN" world0 =
      (Outcome.returned (none, some "Order is already assigned"),
        { store := (), calls := [RepoCall.fetchByID "5c2b2aaf4530558539f91859"] }) :=
  ⟨by decide,
    assignByID_already_assigned
      (NewOrderUsecase (stubRepository (some (testOrder "TAKEN"), none)))
      "5c2b2aaf4530558539f91859" world0 (testOrder "TAKEN") () rfl (by decide)⟩

/-! ## Properties of `Store` -/

/-- A slice with at least two elements yields the joined coordinate pair. -/
theorem joinCoordinates_pair (a b : String) (rest : List String) :
    joinCoordinates (a :: b :: rest) = Outcome.returned (a ++ "," ++ b) := rfl

/-- A slice with fewer than two elements makes the indexing panic. -/
theorem joinCoordinates_short (xs : List String) (h : xs.length < 2) :
    joinCoordinates xs = Outcome.panicked := by
  match xs, h with
  | [], _ => rfl
  | [_], _ => rfl
  | _ :: _ :: _, h => simp at h; omega

/-- When the lookup returns an error, `Store` returns a nil order and that
error, and the world is untouched. -/
theorem store_of_lookup_error {σ κ : Type} (ou : OrderUsecase σ) (maps : MapsLibrary κ)
    (env : Env) (req : OrderRequest) (w : World σ) (dist : Int) (err : String)
    (h : getDistanceFromExternalService maps env req.Origin req.Destination = (dist, some err)) :
    ou.Store maps env req w = ((none, some err), w) := by
  unfold OrderUsecase.Store
  rw [h]

/-- When the lookup returns a distance, `Store` is one logged repository
`Store` call of the new unassigned order. -/
theorem store_of_lookup_distance {σ κ : Type} (ou : OrderUsecase σ) (maps : MapsLibrary κ)
    (env : Env) (req : OrderRequest) (w : World σ) (dist : Int)
    (h : getDistanceFromExternalService maps env req.Origin req.Destination = (dist, none)) :
    ou.Store maps env req w =
      callStore ou.orderRepository { ID := "", Distance := dist, Status := StatusUnassigned } w := by
  unfold OrderUsecase.Store
  rw [h]

/-- The lookup when the construction of the maps client fails. -/
theorem getDistance_client_error {κ : Type} (maps : MapsLibrary κ) (env : Env)
    (origin destination : List String) (err : String)
    (h : (maps.NewClient (env "GOOGLE_API_KEY") (env "GOOGLE_SERVER_URL")).2 = some err) :
    getDistanceFromExternalService maps env origin destination = (0, some err) := by
  unfold getDistanceFromExternalService getDistanceBody
  rcases hc : maps.NewClient (env "GOOGLE_API_KEY") (env "GOOGLE_SERVER_URL") with ⟨c, e⟩
  rw [hc] at h
  simp only at h
  subst h
  simp only [hc]

/-- The lookup when the client is constructed and a coordinate slice has fewer
than two elements: the panic is recovered into the format error. -/
theorem getDistance_short {κ : Type} (maps : MapsLibrary κ) (env : Env)
    (origin destination : List String)
    (hclient : (maps.NewClient (env "GOOGLE_API_KEY") (env "GOOGLE_SERVER_URL")).2 = none)
    (hshort : origin.length < 2 ∨ destination.length < 2) :
    getDistanceFromExternalService maps env origin destination = (0, some errDistanceFormat) := by
  unfold getDistanceFromExternalService getDistanceBody
  rcases hc : maps.NewClient (env "GOOGLE_API_KEY") (env "GOOGLE_SERVER_URL") with ⟨c, e⟩
  rw [hc] at hclient
  simp only at hclient
  subst hclient
  simp only [hc]
  rcases hshort with h | h
  · rw [joinCoordinates_short origin h]
  · rw [joinCoordinates_short destination h]
    cases joinCoordinates origin <;> rfl

/-- The lookup when the client is constructed, both slices have at least two
elements and the distance matrix call returns a response whose first row has a
first element `e`. -/
theorem getDistance_first_element {κ : Type} (maps : MapsLibrary κ) (env : Env)
    (a b c d : String) (ra rd : List String) (client : κ)
    (resp : DistanceMatrixResponse) (row : DistanceMatrixElementsRow)
    (rows : List DistanceMatrixElementsRow) (e : DistanceMatrixElement)
    (es : List (Option DistanceMatrixElement))
    (hclient : maps.NewClient (env "GOOGLE_API_KEY") (env "GOOGLE_SERVER_URL") = (client, none))
    (hcall : maps.DistanceMatrix client
      { Origins := [a ++ "," ++ b], Destinations := [c ++ "," ++ d] } = (some resp, none))
    (hrows : resp.Rows = row :: rows) (helems : row.Elements = some e :: es) :
    getDistanceFromExternalService maps env (a :: b :: ra) (c :: d :: rd) =
      if e.Status ≠ "OK" then (0, some (errDistanceStatus ++ e.Status)) else (e.Meters, none) := by
  unfold getDistanceFromExternalService getDistanceBody
  simp only [hclient, joinCoordinates_pair, hcall]
  have hfirst : firstElement (some resp) = Outcome.returned e := by
    simp [firstElement, index, hrows, helems]
  rw [hfirst]
  by_cases hs : e.Status ≠ "OK"
  · simp only [if_pos hs]
  · simp only [if_neg hs]

/-- Claim C4.  For a request whose origin and destination have exactly two
elements, when the maps client is constructed and the distance matrix call for
the two joined pairs returns a response whose first element has status OK and
`dist` meters, `Store` makes exactly one repository call, `Store` of the order
with empty ID, Distance `dist` and Status UNASSIGNED, and returns exactly the
pair that call returns. -/
theorem store_success {σ κ : Type} (ou : OrderUsecase σ) (maps : MapsLibrary κ) (env : Env)
    (a b c d : String) (w : World σ) (client : κ)
    (resp : DistanceMatrixResponse) (row : DistanceMatrixElementsRow)
    (rows : List DistanceMatrixElementsRow) (e : DistanceMatrixElement)
    (es : List (Option DistanceMatrixElement)) (dist : Int)
    (hclient : maps.NewClient (env "GOOGLE_API_KEY") (env "GOOGLE_SERVER_URL") = (client, none))
    (hcall : maps.DistanceMatrix client
      { Origins := [a ++ "," ++ b], Destinations := [c ++ "," ++ d] } = (some resp, none))
    (hrows : resp.Rows = row :: rows) (helems : row.Elements = some e :: es)
    (hok : e.Status = "OK") (hdist : e.Meters = dist) :
    ou.Store maps env { Origin := [a, b], Destination := [c, d] } w =
      ((ou.orderRepository.Store { ID := "", Distance := dist, Status := "UNASSIGNED" } w.store).1,
        { store :=
            (ou.orderRepository.Store { ID := "", Distance := dist, Status := "UNASSIGNED" }
              w.store).2,
          calls := w.calls ++
            [RepoCall.store { ID := "", Distance := dist, Status := "UNASSIGNED" }] }) := by
  have hlookup := getDistance_first_element maps env a b c d [] [] client resp row rows e es
    hclient hcall hrows helems
  rw [if_neg (not_not.mpr hok), hdist] at hlookup
  rw [store_of_lookup_distance ou maps env { Origin := [a, b], Destination := [c, d] } w dist
    hlookup]
  rfl

/-- Claim C4 at the input of the test "Successfully save order". -/
theorem store_success_witness :
    (NewOrderUsecase (stubRepository (none, none))).Store (stubMaps (testAnswer "OK")) testEnv
        { Origin := ["1", "2"], Destination := ["3", "4"] } world0 =
      ((some { ID := "5c2b2aaf4530558539f91858", Distance := 30539, Status := "UNASSIGNED" },
          none),
        { store := (),
          calls := [RepoCall.store { ID := "", Distance := 30539, Status := "UNASSIGNED" }] }) :=
  store_success (NewOrderUsecase (stubRepository (none, none))) (stubMaps (testAnswer "OK"))
    testEnv "1" "2" "3" "4" world0 ()
    { Rows := [{ Elements := [some { Status := "OK", Meters := 30539 }] }] }
    { Elements := [some { Status := "OK", Meters := 30539 }] } []
    { Status := "OK", Meters := 30539 } [] 30539 (by decide) rfl rfl rfl rfl rfl

/-- Claim C5, as amended.  For every request in which origin or destination
has fewer than two elements, `Store` returns a nil order and an error and makes
no repository call; when the maps client is constructed that error is "Unable
to fetch distance from Google APIs. Please ensure data is in correct format",
and when its construction fails it is the construction error. -/
theorem store_short_coordinates {σ κ : Type} (ou : OrderUsecase σ) (maps : MapsLibrary κ)
    (env : Env) (req : OrderRequest) (w : World σ)
    (hshort : req.Origin.length < 2 ∨ req.Destination.length < 2) :
    (∃ err, ou.Store maps env req w = ((none, some err), w)) ∧
    ((maps.NewClient (env "GOOGLE_API_KEY") (env "GOOGLE_SERVER_URL")).2 = none →
      ou.Store maps env req w =
        ((none, some
          "Unable to fetch distance from Google APIs. Please ensure data is in correct format"),
          w)) ∧
    (∀ err, (maps.NewClient (env "GOOGLE_API_KEY") (env "GOOGLE_SERVER_URL")).2 = some err →
      ou.Store maps env req w = ((none, some err), w)) := by
  have hnone : (maps.NewClient (env "GOOGLE_API_KEY") (env "GOOGLE_SERVER_URL")).2 = none →
      ou.Store maps env req w = ((none, some errDistanceFormat), w) := fun hc =>
    store_of_lookup_error ou maps env req w 0 _
      (getDistance_short maps env req.Origin req.Destination hc hshort)
  have hsome : ∀ err,
      (maps.NewClient (env "GOOGLE_API_KEY") (env "GOOGLE_SERVER_URL")).2 = some err →
      ou.Store maps env req w = ((none, some err), w) := fun err hc =>
    store_of_lookup_error ou maps env req w 0 err
      (getDistance_client_error maps env req.Origin req.Destination err hc)
  refine ⟨?_, hnone, hsome⟩
  cases hc : (maps.NewClient (env "GOOGLE_API_KEY") (env "GOOGLE_SERVER_URL")).2 with
  | none => exact ⟨_, hnone hc⟩
  | some err => exact ⟨err, hsome err hc⟩

/-- Claim C5 at the input of the test "Return error when origin coordinates in
wrong format". -/
theorem store_short_coordinates_witness :
    (NewOrderUsecase (stubRepository (none, none))).Store (stubMaps (testAnswer "OK")) testEnv
        { Origin := ["1"], Destination := ["3", "4"] } world0 =
      ((none, some
        "Unable to fetch distance from Google APIs. Please ensure data is in correct format"),
        world0) :=
  (store_short_coordinates (NewOrderUsecase (stubRepository (none, none)))
    (stubMaps (testAnswer "OK")) testEnv { Origin := ["1"], Destination := ["3", "4"] } world0
    (Or.inl (by decide))).2.1 (by decide)

/-- Claim C5 as stated fails.  A request whose origin has three elements is not
rejected: the first two are used and the order is inserted.  And a request
whose origin has one element, when the maps client cannot be constructed,
fails with the construction error and not with the format error. -/
theorem store_three_coordinates_inserts :
    (NewOrderUsecase (stubRepository (none, none))).Store (stubMaps (testAnswer "OK")) testEnv
        { Origin := ["1", "2", "3"], Destination := ["3", "4"] } world0 =
      ((some { ID := "5c2b2aaf4530558539f91858", Distance := 30539, Status := "UNASSIGNED" },
          none),
        { store := (),
          calls := [RepoCall.store { ID := "", Distance := 30539, Status := "UNASSIGNED" }] }) ∧
    (NewOrderUsecase (stubRepository (none, none))).Store (stubMaps (testAnswer "OK")) emptyEnv
        { Origin := ["1"], Destination := ["3", "4"] } world0 =
      ((none, some "maps: API Key or Maps for Work credentials missing"), world0) := by
  constructor
  · rw [store_of_lookup_distance _ _ _ _ _ 30539 (by decide)]
    rfl
  · exact store_of_lookup_error _ _ _ _ _ 0 _ (by decide)

/-- Claim C6.  When the distance matrix call returns a response whose first
element has a status other than OK, `Store` returns a nil order and the error
"Unable to fetch distance from Google APIs, Status : " followed by that status,
and makes no repository call; and whenever the lookup returns an error,
`Store` returns a nil order and that error and makes no repository call. -/
theorem store_lookup_failure {σ κ : Type} (ou : OrderUsecase σ) (maps : MapsLibrary κ)
    (env : Env) (req : OrderRequest) (w : World σ) :
    (∀ (client : κ) (a b c d : String) (ra rd : List String)
        (resp : DistanceMatrixResponse) (row : DistanceMatrixElementsRow)
        (rows : List DistanceMatrixElementsRow) (e : DistanceMatrixElement)
        (es : List (Option DistanceMatrixElement)),
      req.Origin = a :: b :: ra → req.Destination = c :: d :: rd →
      maps.NewClient (env "GOOGLE_API_KEY") (env "GOOGLE_SERVER_URL") = (client, none) →
      maps.DistanceMatrix client
        { Origins := [a ++ "," ++ b], Destinations := [c ++ "," ++ d] } = (some resp, none) →
      resp.Rows = row :: rows → row.Elements = some e :: es → e.Status ≠ "OK" →
      ou.Store maps env req w =
        ((none, some ("Unable to fetch distance from Google APIs, Status : " ++ e.Status)), w)) ∧
    (∀ (dist : Int) (err : String),
      getDistanceFromExternalService maps env req.Origin req.Destination = (dist, some err) →
      ou.Store maps env req w = ((none, some err), w)) := by
  constructor
  · intro client a b c d ra rd resp row rows e es ho hd hclient hcall hrows helems hs
    have hlookup := getDistance_first_element maps env a b c d ra rd client resp row rows e es
      hclient hcall hrows helems
    rw [if_pos hs, ← ho, ← hd] at hlookup
    exact store_of_lookup_error ou maps env req w 0 _ hlookup
  · intro dist err h
    exact store_of_lookup_error ou maps env req w dist err h

/-- Claim C6 at the input of the test "Return error when Google APIs return
ZERO_RESULTS". -/
theorem store_lookup_failure_witness :
    (NewOrderUsecase (stubRepository (none, none))).Store (stubMaps (testAnswer "ZERO_RESULTS"))
        testEnv { Origin := ["1", "2"], Destination := ["3", "4"] } world0 =
      ((none, some "Unable to fetch distance from Google APIs, Status : ZERO_RESULTS"), world0) :=
  (store_lookup_failure (NewOrderUsecase (stubRepository (none, none)))
    (stubMaps (testAnswer "ZERO_RESULTS")) testEnv
    { Origin := ["1", "2"], Destination := ["3", "4"] } world0).1
    () "1" "2" "3" "4" [] []
    { Rows := [{ Elements := [some { Status := "ZERO_RESULTS", Meters := 30539 }] }] }
    { Elements := [some { Status := "ZERO_RESULTS", Meters := 30539 }] } []
    { Status := "ZERO_RESULTS", Meters := 30539 } [] rfl rfl (by decide) rfl rfl rfl (by decide)

/-- The status error text is the common beginning followed by detail text. -/
theorem errDistanceStatus_split (status : String) :
    errDistanceStatus ++ status =
      "Unable to fetch distance from Google APIs" ++ (", Status : " ++ status) := by
  have h : errDistanceStatus = "Unable to fetch distance from Google APIs" ++ ", Status : " := by
    decide
  rw [h, String.append_assoc]

/-- The format error text is the common beginning followed by detail text. -/
theorem errDistanceFormat_split :
    errDistanceFormat =
      "Unable to fetch distance from Google APIs" ++
        ". Please ensure data is in correct format" := by
  decide

/-- Claim C7, as amended.  When a coordinate list is too short (the maps client
being constructed) and when the first element of the response has a status
other than OK, the error of `Store` is "Unable to fetch distance from Google
APIs" followed by detail text: ". Please ensure data is in correct format" in
the first case, ", Status : " and the status in the second.  An error returned
by the maps client, from its construction or from the distance matrix call, is
returned by `Store` unchanged. -/
theorem store_lookup_error_text {σ κ : Type} (ou : OrderUsecase σ) (maps : MapsLibrary κ)
    (env : Env) (req : OrderRequest) (w : World σ) :
    ((maps.NewClient (env "GOOGLE_API_KEY") (env "GOOGLE_SERVER_URL")).2 = none →
      (req.Origin.length < 2 ∨ req.Destination.length < 2) →
      (ou.Store maps env req w).1 =
        (none, some ("Unable to fetch distance from Google APIs" ++
          ". Please ensure data is in correct format"))) ∧
    (∀ (client : κ) (a b c d : String) (ra rd : List String)
        (resp : DistanceMatrixResponse) (row : DistanceMatrixElementsRow)
        (rows : List DistanceMatrixElementsRow) (e : DistanceMatrixElement)
        (es : List (Option DistanceMatrixElement)),
      req.Origin = a :: b :: ra → req.Destination = c :: d :: rd →
      maps.NewClient (env "GOOGLE_API_KEY") (env "GOOGLE_SERVER_URL") = (client, none) →
      maps.DistanceMatrix client
        { Origins := [a ++ "," ++ b], Destinations := [c ++ "," ++ d] } = (some resp, none) →
      resp.Rows = row :: rows → row.Elements = some e :: es → e.Status ≠ "OK" →
      (ou.Store maps env req w).1 =
        (none, some ("Unable to fetch distance from Google APIs" ++
          (", Status : " ++ e.Status)))) ∧
    (∀ err, (maps.NewClient (env "GOOGLE_API_KEY") (env "GOOGLE_SERVER_URL")).2 = some err →
      (ou.Store maps env req w).1 = (none, some err)) ∧
    (∀ (client : κ) (a b c d : String) (ra rd : List String)
        (resp : Option DistanceMatrixResponse) (err : String),
      req.Origin = a :: b :: ra → req.Destination = c :: d :: rd →
      maps.NewClient (env "GOOGLE_API_KEY") (env "GOOGLE_SERVER_URL") = (client, none) →
      maps.DistanceMatrix client
        { Origins := [a ++ "," ++ b], Destinations := [c ++ "," ++ d] } = (resp, some err) →
      (ou.Store maps env req w).1 = (none, some err)) := by
  refine ⟨?_, ?_, ?_, ?_⟩
  · intro hc hshort
    rw [store_of_lookup_error ou maps env req w 0 _
      (getDistance_short maps env req.Origin req.Destination hc hshort), errDistanceFormat_split]
  · intro client a b c d ra rd resp row rows e es ho hd hclient hcall hrows helems hs
    have hlookup := getDistance_first_element maps env a b c d ra rd client resp row rows e es
      hclient hcall hrows helems
    rw [if_pos hs, ← ho, ← hd, errDistanceStatus_split] at hlookup
    rw [store_of_lookup_error ou maps env req w 0 _ hlookup]
  · intro err hc
    rw [store_of_lookup_error ou maps env req w 0 err
      (getDistance_client_error maps env req.Origin req.Destination err hc)]
  · intro client a b c d ra rd resp err ho hd hclient hcall
    have hlookup : getDistanceFromExternalService maps env req.Origin req.Destination
        = (0, some err) := by
      rw [ho, hd]
      unfold getDistanceFromExternalService getDistanceBody
      simp only [hclient, joinCoordinates_pair, hcall]
    rw [store_of_lookup_error ou maps env req w 0 err hlookup]

/-- Claim C7 at concrete inputs: a one-element origin, and a failed
construction of the maps client. -/
theorem store_lookup_error_text_witness :
    ((NewOrderUsecase (stubRepository (none, none))).Store (stubMaps (testAnswer "OK")) testEnv
        { Origin := ["1"], Destination := ["3", "4"] } world0).1 =
      (none, some ("Unable to fetch distance from Google APIs" ++
        ". Please ensure data is in correct format")) ∧
    ((NewOrderUsecase (stubRepository (none, none))).Store (stubMaps (testAnswer "OK")) emptyEnv
        { Origin := ["1", "2"], Destination := ["3", "4"] } world0).1 =
      (none, some "maps: API Key or Maps for Work credentials missing") :=
  ⟨(store_lookup_error_text (NewOrderUsecase (stubRepository (none, none)))
      (stubMaps (testAnswer "OK")) testEnv { Origin := ["1"], Destination := ["3", "4"] }
      world0).1 (by decide) (Or.inl (by decide)),
    (store_lookup_error_text (NewOrderUsecase (stubRepository (none, none)))
      (stubMaps (testAnswer "OK")) emptyEnv { Origin := ["1", "2"], Destination := ["3", "4"] }
      world0).2.2.1 _ (by decide)⟩

/-- Claim C7 as stated fails.  When the construction of the maps client fails,
for a well-formed request, the error of `Store` is the error of the client, and
its text does not begin with "Unable to fetch distance from Google APIs". -/
theorem store_client_error_not_uniform :
    ((NewOrderUsecase (stubRepository (none, none))).Store (stubMaps (testAnswer "OK")) emptyEnv
        { Origin := ["1", "2"], Destination := ["3", "4"] } world0).1 =
      (none, some "maps: API Key or Maps for Work credentials missing") ∧
    ¬ ∃ detail : String, "maps: API Key or Maps for Work credentials missing" =
      "Unable to fetch distance from Google APIs" ++ detail := by
  constructor
  · rw [store_of_lookup_error _ _ _ _ _ 0
      "maps: API Key or Maps for Work credentials missing" (by decide)]
  · rintro ⟨detail, h⟩
    have hdata := congrArg String.data h
    rw [String.data_append] at hdata
    have hhead := congrArg List.head? hdata
    simp at hhead

/-! ## Properties of `FetchByRange` -/

/-- On the 64 bit range `wrapInt` is the identity. -/
theorem wrapInt_of_range (x : Int) (hlo : -(2 ^ 63) ≤ x) (hhi : x < 2 ^ 63) : wrapInt x = x := by
  unfold wrapInt
  omega

/-- With a non-zero limit `FetchByRange` is one logged repository call with
skip `(page - 1) * pageSize` in Go arithmetic and the limit clamped to the
page size. -/
theorem fetchByRange_nonzero {σ : Type} (ou : OrderUsecase σ) (env : Env) (page limit : Int)
    (w : World σ) (hl : limit ≠ 0) :
    ou.FetchByRange env page limit w =
      callFetchByRange ou.orderRepository
        (mulInt (subInt page 1) (Atoi (pageSize env)).1)
        (if limit > (Atoi (pageSize env)).1 then (Atoi (pageSize env)).1 else limit) w := by
  unfold OrderUsecase.FetchByRange
  simp only [if_neg hl]

/-- The call log after `FetchByRange` with a non-zero limit: one more entry. -/
theorem fetchByRange_calls {σ : Type} (ou : OrderUsecase σ) (env : Env) (page limit : Int)
    (w : World σ) (hl : limit ≠ 0) :
    (ou.FetchByRange env page limit w).2.calls =
      w.calls ++ [RepoCall.fetchByRange (mulInt (subInt page 1) (Atoi (pageSize env)).1)
        (if limit > (Atoi (pageSize env)).1 then (Atoi (pageSize env)).1 else limit)] := by
  rw [fetchByRange_nonzero ou env page limit w hl]
  rfl

/-- Claim C8.  For every page and every environment, hence every configured
page size, `FetchByRange page 0` returns an empty, non-nil list and a nil
error, and leaves the world untouched: no repository call is made. -/
theorem fetchByRange_zero_limit {σ : Type} (ou : OrderUsecase σ) (env : Env) (page : Int)
    (w : World σ) :
    ou.FetchByRange env page 0 w = ((some [], none), w) := by
  unfold OrderUsecase.FetchByRange
  simp

/-- Claim C9, as amended.  For every page, every environment with configured
page size `P = Atoi (pageSize env)` and every non-zero limit, `FetchByRange`
makes exactly one repository call, `FetchByRange` with limit argument
`min limit P`, and returns what that call returns: the limit argument is `P`
when `limit > P` and is `limit` unchanged when `0 < limit ≤ P`. -/
theorem fetchByRange_forwarded_limit {σ : Type} (ou : OrderUsecase σ) (env : Env)
    (page limit : Int) (w : World σ) (hl : limit ≠ 0) :
    ((ou.FetchByRange env page limit w).2.calls =
        w.calls ++ [RepoCall.fetchByRange (mulInt (subInt page 1) (Atoi (pageSize env)).1)
          (min limit (Atoi (pageSize env)).1)] ∧
      (ou.FetchByRange env page limit w).1 =
        (ou.orderRepository.FetchByRange (mulInt (subInt page 1) (Atoi (pageSize env)).1)
          (min limit (Atoi (pageSize env)).1) w.store).1) ∧
    (limit > (Atoi (pageSize env)).1 →
      (ou.FetchByRange env page limit w).2.calls =
        w.calls ++ [RepoCall.fetchByRange (mulInt (subInt page 1) (Atoi (pageSize env)).1)
          (Atoi (pageSize env)).1]) ∧
    (0 < limit → limit ≤ (Atoi (pageSize env)).1 →
      (ou.FetchByRange env page limit w).2.calls =
        w.calls ++ [RepoCall.fetchByRange (mulInt (subInt page 1) (Atoi (pageSize env)).1)
          limit]) := by
  rw [fetchByRange_nonzero ou env page limit w hl]
  by_cases hgt : limit > (Atoi (pageSize env)).1
  · have hmin : min limit (Atoi (pageSize env)).1 = (Atoi (pageSize env)).1 :=
      min_eq_right (le_of_lt hgt)
    rw [if_pos hgt, hmin]
    refine ⟨⟨rfl, rfl⟩, fun _ => rfl, fun _ hle => absurd hgt (not_lt.mpr hle)⟩
  · have hmin : min limit (Atoi (pageSize env)).1 = limit := min_eq_left (not_lt.mp hgt)
    rw [if_neg hgt, hmin]
    refine ⟨⟨rfl, rfl⟩, fun h => absurd h hgt, fun _ _ => rfl⟩

/-- Claim C9 at the input of the test "Successfully adjust limit to pagesize
and fetch orders in range": page 2, limit 11, page size 10. -/
theorem fetchByRange_forwarded_limit_witness :
    (11 : Int) ≠ 0 ∧ (11 : Int) > (Atoi (pageSize testEnv)).1 ∧
    ((NewOrderUsecase (stubRepository (none, none))).FetchByRange testEnv 2 11 world0).2.calls =
      world0.calls ++ [RepoCall.fetchByRange
        (mulInt (subInt 2 1) (Atoi (pageSize testEnv)).1) (Atoi (pageSize testEnv)).1] ∧
    ((NewOrderUsecase (stubRepository (none, none))).FetchByRange testEnv 2 3 world0).2.calls =
      world0.calls ++ [RepoCall.fetchByRange
        (mulInt (subInt 2 1) (Atoi (pageSize testEnv)).1) 3] :=
  ⟨by decide, by decide,
    (fetchByRange_forwarded_limit (NewOrderUsecase (stubRepository (none, none))) testEnv 2 11
      world0 (by decide)).2.1 (by decide),
    (fetchByRange_forwarded_limit (NewOrderUsecase (stubRepository (none, none))) testEnv 2 3
      world0 (by decide)).2.2 (by decide) (by decide)⟩

/-- Claim C9 as stated fails.  With `PAGE_SIZE` set to -5 the configured page
size is -5, the limit 0 is greater than it, and `FetchByRange 1 0` makes no
repository call. -/
theorem fetchByRange_zero_limit_above_page_size :
    (Atoi (pageSize (pageSizeOnly "-5"))).1 = -5 ∧
    (0 : Int) > (Atoi (pageSize (pageSizeOnly "-5"))).1 ∧
    ((NewOrderUsecase (stubRepository (none, none))).FetchByRange (pageSizeOnly "-5") 1 0
      world0).2.calls = [] := by
  refine ⟨by decide, by decide, ?_⟩
  unfold OrderUsecase.FetchByRange
  simp [world0]

/-- Claim C10.  For every page at least 1, every environment with configured
page size `P = Atoi (pageSize env)` and every non-zero limit, the single
repository call of `FetchByRange` has skip argument `(page - 1) * P` in Go
`int` arithmetic; the same skip is used for every other non-zero limit; and
whenever `page` is a Go `int` and the product fits in a Go `int`, that skip is
the integer `(page - 1) * P`. -/
theorem fetchByRange_skip {σ : Type} (ou : OrderUsecase σ) (env : Env) (page limit : Int)
    (w : World σ) (hpage : 1 ≤ page) (hl : limit ≠ 0) :
    (∃ forwarded, (ou.FetchByRange env page limit w).2.calls =
      w.calls ++ [RepoCall.fetchByRange (mulInt (subInt page 1) (Atoi (pageSize env)).1)
        forwarded]) ∧
    (∀ limit2 : Int, limit2 ≠ 0 →
      ∃ forwarded2, (ou.FetchByRange env page limit2 w).2.calls =
        w.calls ++ [RepoCall.fetchByRange (mulInt (subInt page 1) (Atoi (pageSize env)).1)
          forwarded2]) ∧
    (page < 2 ^ 63 → -(2 ^ 63) ≤ (page - 1) * (Atoi (pageSize env)).1 →
      (page - 1) * (Atoi (pageSize env)).1 < 2 ^ 63 →
      mulInt (subInt page 1) (Atoi (pageSize env)).1 = (page - 1) * (Atoi (pageSize env)).1) := by
  refine ⟨⟨_, fetchByRange_calls ou env page limit w hl⟩,
    fun limit2 hl2 => ⟨_, fetchByRange_calls ou env page limit2 w hl2⟩, ?_⟩
  intro hhi hlo hhi2
  have hsub : subInt page 1 = page - 1 := by
    unfold subInt
    exact wrapInt_of_range _ (by omega) (by omega)
  rw [hsub]
  unfold mulInt
  exact wrapInt_of_range _ hlo hhi2

/-- Claim C10 at the inputs of the tests of `FetchByRange`: with page size 10,
page 2 is fetched with skip 10 both for limit 11 and for limit 3. -/
theorem fetchByRange_skip_witness :
    (∃ forwarded,
      ((NewOrderUsecase (stubRepository (none, none))).FetchByRange testEnv 2 11 world0).2.calls =
        world0.calls ++ [RepoCall.fetchByRange
          (mulInt (subInt 2 1) (Atoi (pageSize testEnv)).1) forwarded]) ∧
    (∃ forwarded,
      ((NewOrderUsecase (stubRepository (none, none))).FetchByRange testEnv 2 3 world0).2.calls =
        world0.calls ++ [RepoCall.fetchByRange
          (mulInt (subInt 2 1) (Atoi (pageSize testEnv)).1) forwarded]) ∧
    mulInt (subInt 2 1) (Atoi (pageSize testEnv)).1 = (2 - 1) * (Atoi (pageSize testEnv)).1 ∧
    (2 - 1) * (Atoi (pageSize testEnv)).1 = 10 :=
  ⟨(fetchByRange_skip (NewOrderUsecase (stubRepository (none, none))) testEnv 2 11 world0
      (by decide) (by decide)).1,
    (fetchByRange_skip (NewOrderUsecase (stubRepository (none, none))) testEnv 2 11 world0
      (by decide) (by decide)).2.1 3 (by decide),
    (fetchByRange_skip (NewOrderUsecase (stubRepository (none, none))) testEnv 2 11 world0
      (by decide) (by decide)).2.2 (by decide) (by decide) (by decide),
    by decide⟩

/-! ## Properties of `Atoi` and of the page size -/

/-- Reading further digits does not decrease the value. -/
theorem decimalFrom_ge (digits : List Char) (n : Nat) : n ≤ decimalFrom n digits := by
  induction digits generalizing n with
  | nil => exact Nat.le_refl n
  | cons c cs ih =>
    have h := ih (n * 10 + (c.toNat - 48))
    unfold decimalFrom at h ⊢
    simp only [List.foldl_cons]
    omega

/-- On decimal digits whose value fits in a `uint64` the digit loop of
`ParseUint` returns that value and no error. -/
theorem parseUintLoop_decimal (digits : List Char) (n : Nat) (hd : IsDecimal digits)
    (hfit : decimalFrom n digits ≤ maxUint64) :
    parseUintLoop digits n = (decimalFrom n digits, none) := by
  induction digits generalizing n with
  | nil => rfl
  | cons c cs ih =>
    have hc : 48 ≤ c.toNat ∧ c.toNat ≤ 57 := hd c (List.mem_cons_self c cs)
    have hcs : IsDecimal cs := fun x hx => hd x (List.mem_cons_of_mem c hx)
    have hstep : decimalFrom n (c :: cs) = decimalFrom (n * 10 + (c.toNat - 48)) cs := rfl
    rw [hstep] at hfit ⊢
    have hge := decimalFrom_ge cs (n * 10 + (c.toNat - 48))
    have hmax : maxUint64 = 18446744073709551615 := by decide
    have h1 : ¬ (n ≥ maxUint64 / 10 + 1) := by rw [hmax]; omega
    have h2 : ¬ (n * 10 + (c.toNat - 48) > maxUint64) := by omega
    unfold parseUintLoop
    simp only [hc, and_self, if_true, h1, if_false, h2]
    exact ih (n * 10 + (c.toNat - 48)) hcs hfit

/-- On a non-empty decimal numeral without sign whose value fits in a Go `int`,
`Atoi` returns that value and no error. -/
theorem Atoi_decimal (s : String) (hne : s.data ≠ []) (hd : IsDecimal s.data)
    (hfit : decimalFrom 0 s.data < 2 ^ 63) :
    Atoi s = (((decimalFrom 0 s.data : Nat) : Int), none) := by
  unfold Atoi ParseInt
  match hs : s.data, hne with
  | c :: cs, _ =>
    rw [hs] at hd hfit
    have hc : 48 ≤ c.toNat ∧ c.toNat ≤ 57 := hd c (List.mem_cons_self c cs)
    have hplus : c ≠ '+' := by
      intro h; rw [h] at hc; revert hc; decide
    have hminus : c ≠ '-' := by
      intro h; rw [h] at hc; revert hc; decide
    have hmax : maxUint64 = 18446744073709551615 := by decide
    have hloop := parseUintLoop_decimal (c :: cs) 0 hd (by rw [hmax]; omega)
    simp only [hplus, hminus, or_self, if_false, ParseUint, hloop, decide_False]
    simp
    omega

/-- On a minus sign followed by a non-empty decimal numeral whose value is at
most `2 ^ 63`, `Atoi` returns the negated value and no error. -/
theorem Atoi_negative (s : String) (digits : List Char) (hs : s.data = '-' :: digits)
    (hne : digits ≠ []) (hd : IsDecimal digits) (hfit : decimalFrom 0 digits ≤ 2 ^ 63) :
    Atoi s = (-((decimalFrom 0 digits : Nat) : Int), none) := by
  unfold Atoi ParseInt
  rw [hs]
  match digits, hne with
  | c :: cs, _ =>
    have hmax : maxUint64 = 18446744073709551615 := by decide
    have hloop := parseUintLoop_decimal (c :: cs) 0 hd (by rw [hmax]; omega)
    simp [ParseUint]
    rw [hloop]
    simp
    omega

/-- A Go string has length 0 exactly when it is the empty string. -/
theorem length_eq_zero_iff (s : String) : s.length = 0 ↔ s = "" := by
  constructor
  · intro h
    have hd : s.data = [] := List.length_eq_zero.mp h
    exact String.ext hd
  · intro h
    rw [h]
    rfl

/-- The function `pageSize` on an unset or empty setting. -/
theorem pageSize_empty (env : Env) (h : env "PAGE_SIZE" = "") : pageSize env = "10" := by
  unfold pageSize
  rw [if_pos ((length_eq_zero_iff _).mpr h)]

/-- The function `pageSize` on a non-empty setting. -/
theorem pageSize_nonempty (env : Env) (h : env "PAGE_SIZE" ≠ "") :
    pageSize env = env "PAGE_SIZE" := by
  unfold pageSize
  rw [if_neg (fun hl => h ((length_eq_zero_iff _).mp hl))]

/-- Claim C11 at failing inputs.  With `PAGE_SIZE` unset the page size is 10;
`GET /orders?limit=-1000` passes the handler, and `FetchByRange` forwards the
limit -1000 to the repository, which hands it to the database query: the
forwarded limit is not a positive count within the page size.  And with
`PAGE_SIZE` set to a text that is not a number the page size is 0, and the
limit 5 is forwarded as 0. -/
theorem fetchByRange_negative_limit_forwarded :
    Atoi "-1000" = (-1000, none) ∧ (Atoi (pageSize emptyEnv)).1 = 10 ∧
    (getOrders ((NewOrderUsecase (NewMongoOrderRepository stubDriver)).toUsecase
        (stubMaps (testAnswer "OK")) emptyEnv)
        (getRequest none (some ["-1000"])) mongoWorld0).2.calls =
      [RepoCall.fetchByRange 0 (-1000)] ∧
    (getOrders ((NewOrderUsecase (NewMongoOrderRepository stubDriver)).toUsecase
        (stubMaps (testAnswer "OK")) emptyEnv)
        (getRequest none (some ["-1000"])) mongoWorld0).2.store.log =
      [DBCall.find 0 (-1000)] ∧
    ¬ (1 ≤ (-1000 : Int) ∧ (-1000 : Int) ≤ 10) ∧
    (Atoi (pageSize (pageSizeOnly "abc"))).1 = 0 ∧
    ((NewOrderUsecase (NewMongoOrderRepository stubDriver)).FetchByRange (pageSizeOnly "abc")
        1 5 mongoWorld0).2.calls =
      [RepoCall.fetchByRange 0 0] := by
  refine ⟨by decide, by decide, by decide, by decide, by decide, by decide, by decide⟩

/-- Claim C12.  For an unset or empty `PAGE_SIZE` the function `pageSize`
returns "10" and the page size is 10; for every non-empty `PAGE_SIZE` it
returns that value and the page size is what `Atoi` makes of it, which for a
decimal numeral within the Go `int` range is the number it denotes; and this
page size is the one `FetchByRange` clamps the limit to and multiplies the
page with. -/
theorem pageSize_setting {σ : Type} (ou : OrderUsecase σ) (env : Env) (page limit : Int)
    (w : World σ) :
    (env "PAGE_SIZE" = "" → pageSize env = "10" ∧ (Atoi (pageSize env)).1 = 10) ∧
    (env "PAGE_SIZE" ≠ "" →
      pageSize env = env "PAGE_SIZE" ∧
      (Atoi (pageSize env)).1 = (Atoi (env "PAGE_SIZE")).1) ∧
    (env "PAGE_SIZE" ≠ "" → IsDecimal (env "PAGE_SIZE").data →
      decimalFrom 0 (env "PAGE_SIZE").data < 2 ^ 63 →
      (Atoi (pageSize env)).1 = ((decimalFrom 0 (env "PAGE_SIZE").data : Nat) : Int)) ∧
    (limit ≠ 0 →
      ou.FetchByRange env page limit w =
        callFetchByRange ou.orderRepository
          (mulInt (subInt page 1) (Atoi (pageSize env)).1)
          (if limit > (Atoi (pageSize env)).1 then (Atoi (pageSize env)).1 else limit) w) := by
  refine ⟨?_, ?_, ?_, fun hl => fetchByRange_nonzero ou env page limit w hl⟩
  · intro h
    rw [pageSize_empty env h]
    exact ⟨rfl, by decide⟩
  · intro h
    rw [pageSize_nonempty env h]
    exact ⟨rfl, rfl⟩
  · intro h hd hfit
    rw [pageSize_nonempty env h]
    have hne : (env "PAGE_SIZE").data ≠ [] := fun hnil => h (String.ext hnil)
    rw [Atoi_decimal (env "PAGE_SIZE") hne hd hfit]

/-- Claim C12 at concrete settings: `PAGE_SIZE` unset, and set to 25. -/
theorem pageSize_setting_witness :
    (pageSize emptyEnv = "10" ∧ (Atoi (pageSize emptyEnv)).1 = 10) ∧
    (pageSize (pageSizeOnly "25") = "25" ∧
      (Atoi (pageSize (pageSizeOnly "25"))).1 = (Atoi "25").1) ∧
    (Atoi (pageSize (pageSizeOnly "25"))).1 = ((decimalFrom 0 "25".data : Nat) : Int) ∧
    decimalFrom 0 "25".data = 25 :=
  ⟨(pageSize_setting (NewOrderUsecase (stubRepository (none, none))) emptyEnv 1 1 world0).1 rfl,
    (pageSize_setting (NewOrderUsecase (stubRepository (none, none))) (pageSizeOnly "25") 1 1
      world0).2.1 (by decide),
    (pageSize_setting (NewOrderUsecase (stubRepository (none, none))) (pageSizeOnly "25") 1 1
      world0).2.2.1 (by decide) (by unfold IsDecimal; decide) (by decide),
    by decide⟩

/-! ## Errors of the repository -/

/-- Claim C13.  An error returned by a repository call is returned by the
usecase unchanged, and no further repository call follows it.  In `AssignByID`
an error of `FetchByID` is returned with a nil result after the fetch alone,
and an error of `UpdateByID` is returned with a nil result after the fetch and
that one update.  In `Store`, after a successful lookup, the pair of the
repository's `Store` with its error is returned after that one insert.  In
`FetchByRange` with a non-zero limit the pair of the repository's
`FetchByRange` with its error is returned after that one read. -/
theorem repository_error_returned {σ κ : Type} (ou : OrderUsecase σ) (maps : MapsLibrary κ)
    (env : Env) (w : World σ) :
    (∀ (id : String) (o : Option Order) (err : String) (s1 : σ),
      ou.orderRepository.FetchByID id w.store = ((o, some err), s1) →
      ou.AssignByID id "TAKEN" w =
        (Outcome.returned (none, some err),
          { store := s1, calls := w.calls ++ [RepoCall.fetchByID id] })) ∧
    (∀ (id : String) (o : Order) (err : String) (s1 s2 : σ),
      ou.orderRepository.FetchByID id w.store = ((some o, none), s1) →
      o.Status = "UNASSIGNED" →
      ou.orderRepository.UpdateByID
        { ID := o.ID, Distance := o.Distance, Status := "TAKEN" } s1 = (some err, s2) →
      ou.AssignByID id "TAKEN" w =
        (Outcome.returned (none, some err),
          { store := s2,
            calls := w.calls ++ [RepoCall.fetchByID id,
              RepoCall.updateByID { ID := o.ID, Distance := o.Distance, Status := "TAKEN" }] })) ∧
    (∀ (req : OrderRequest) (dist : Int) (o : Option Order) (err : String) (s1 : σ),
      getDistanceFromExternalService maps env req.Origin req.Destination = (dist, none) →
      ou.orderRepository.Store { ID := "", Distance := dist, Status := "UNASSIGNED" } w.store
        = ((o, some err), s1) →
      ou.Store maps env req w =
        ((o, some err),
          { store := s1,
            calls := w.calls ++
              [RepoCall.store { ID := "", Distance := dist, Status := "UNASSIGNED" }] })) ∧
    (∀ (page limit : Int) (res : Option (List Order)) (err : String) (s1 : σ),
      limit ≠ 0 →
      ou.orderRepository.FetchByRange (mulInt (subInt page 1) (Atoi (pageSize env)).1)
        (min limit (Atoi (pageSize env)).1) w.store = ((res, some err), s1) →
      ou.FetchByRange env page limit w =
        ((res, some err),
          { store := s1,
            calls := w.calls ++ [RepoCall.fetchByRange
              (mulInt (subInt page 1) (Atoi (pageSize env)).1)
              (min limit (Atoi (pageSize env)).1)] })) := by
  refine ⟨?_, ?_, ?_, ?_⟩
  · intro id o err s1 hfetch
    rw [assignByID_taken_unfold]
    simp only [callFetchByID, hfetch]
  · intro id o err s1 s2 hfetch hstatus hupdate
    have hs : ¬ (o.Status ≠ StatusUnassigned) := by simp [hstatus, StatusUnassigned]
    have hu : ou.orderRepository.UpdateByID { o with Status := StatusTaken } s1
        = (some err, s2) := hupdate
    rw [assignByID_taken_unfold]
    simp only [callFetchByID, hfetch, hs, if_false, callUpdateByID, hu]
    simp [StatusTaken]
  · intro req dist o err s1 hlookup hstore
    have hst : ou.orderRepository.Store
        { ID := "", Distance := dist, Status := StatusUnassigned } w.store = ((o, some err), s1) :=
      hstore
    rw [store_of_lookup_distance ou maps env req w dist hlookup]
    simp only [callStore, hst]
    rfl
  · intro page limit res err s1 hl hread
    have hmin : (if limit > (Atoi (pageSize env)).1 then (Atoi (pageSize env)).1 else limit)
        = min limit (Atoi (pageSize env)).1 := by
      by_cases hgt : limit > (Atoi (pageSize env)).1
      · rw [if_pos hgt, min_eq_right (le_of_lt hgt)]
      · rw [if_neg hgt, min_eq_left (not_lt.mp hgt)]
    rw [fetchByRange_nonzero ou env page limit w hl, hmin]
    simp only [callFetchByRange, hread]

/-- Claim C13 at the inputs of the tests "Return error if order does not
exist", "Return error if order update fails", "Return error if save operation
fails", and for a failing read of page 2 with limit 8. -/
theorem repository_error_returned_witness :
    (NewOrderUsecase (failingRepository (some zeroOrder, some "not found")
        "connection lost")).AssignByID "5c2b2aaf4530558539f91859" "TAKEN" world0 =
      (Outcome.returned (none, some "not found"),
        { store := (), calls := [RepoCall.fetchByID "5c2b2aaf4530558539f91859"] }) ∧
    (NewOrderUsecase (failingRepository (some (testOrder "UNASSIGNED"), none)
        "connection lost")).AssignByID "5c2b2aaf4530558539f91859" "TAKEN" world0 =
      (Outcome.returned (none, some "connection lost"),
        { store := (),
          calls := [RepoCall.fetchByID "5c2b2aaf4530558539f91859",
            RepoCall.updateByID
              { ID := "5c2b2aaf4530558539f91859", Distance := 12345, Status := "TAKEN" }] }) ∧
    (NewOrderUsecase (failingRepository (none, none) "connection lost")).Store
        (stubMaps (testAnswer "OK")) testEnv
        { Origin := ["1", "2"], Destination := ["3", "4"] } world0 =
      ((some zeroOrder, some "connection lost"),
        { store := (),
          calls := [RepoCall.store { ID := "", Distance := 30539, Status := "UNASSIGNED" }] }) ∧
    (NewOrderUsecase (failingRepository (none, none) "connection lost")).FetchByRange
        testEnv 2 8 world0 =
      ((some [], some "connection lost"),
        { store := (),
          calls := [RepoCall.fetchByRange (mulInt (subInt 2 1) (Atoi (pageSize testEnv)).1)
            (min 8 (Atoi (pageSize testEnv)).1)] }) :=
  ⟨(repository_error_returned
      (NewOrderUsecase (failingRepository (some zeroOrder, some "not found") "connection lost"))
      (stubMaps (testAnswer "OK")) testEnv world0).1
      "5c2b2aaf4530558539f91859" (some zeroOrder) "not found" () rfl,
    (repository_error_returned
      (NewOrderUsecase (failingRepository (some (testOrder "UNASSIGNED"), none)
        "connection lost"))
      (stubMaps (testAnswer "OK")) testEnv world0).2.1
      "5c2b2aaf4530558539f91859" (testOrder "UNASSIGNED") "connection lost" () () rfl rfl rfl,
    (repository_error_returned
      (NewOrderUsecase (failingRepository (none, none) "connection lost"))
      (stubMaps (testAnswer "OK")) testEnv world0).2.2.1
      { Origin := ["1", "2"], Destination := ["3", "4"] } 30539 (some zeroOrder)
      "connection lost" () (by decide) rfl,
    (repository_error_returned
      (NewOrderUsecase (failingRepository (none, none) "connection lost"))
      (stubMaps (testAnswer "OK")) testEnv world0).2.2.2
      2 8 (some []) "connection lost" () (by decide) rfl⟩

/-! ## Object ids -/

/-- A character with code at most 127 is one byte of UTF-8. -/
theorem utf8Size_ascii (c : Char) (h : c.toNat ≤ 127) : c.utf8Size = 1 := by
  unfold Char.utf8Size
  have h1 : c.val ≤ UInt32.ofNatCore 127 (by decide) := by
    show c.val.toNat ≤ 127
    exact h
  rw [if_pos h1]

/-- The function `hexValue` is defined exactly on the hexadecimal digits. -/
theorem hexValue_isSome (c : Char) :
    (hexValue c).isSome = true ↔
      ((48 ≤ c.toNat ∧ c.toNat ≤ 57) ∨ (97 ≤ c.toNat ∧ c.toNat ≤ 102) ∨
        (65 ≤ c.toNat ∧ c.toNat ≤ 70)) := by
  unfold hexValue
  split_ifs with h1 h2 h3 <;> simp <;> omega

/-- The function `hexDecode` succeeds exactly on an even number of hexadecimal
digits. -/
theorem hexDecode_isSome (cs : List Char) :
    (hexDecode cs).isSome = true ↔ (cs.length % 2 = 0 ∧ IsHex cs) := by
  induction cs using hexDecode.induct with
  | case1 => simp [hexDecode, IsHex]
  | case2 c => simp [hexDecode]
  | case3 h l rest a b bytes hrest hl hh ih =>
    have h1 := (hexValue_isSome h).mp (by rw [hh]; rfl)
    have h2 := (hexValue_isSome l).mp (by rw [hl]; rfl)
    have h3 := ih.mp (by rw [hrest]; rfl)
    have hdec : hexDecode (h :: l :: rest) = some (Char.ofNat (16 * a + b) :: bytes) := by
      simp [hexDecode, hh, hl, hrest]
    rw [hdec]
    refine ⟨fun _ => ⟨by simp; omega, ?_⟩, fun _ => rfl⟩
    intro c hc
    simp only [List.mem_cons] at hc
    rcases hc with hc | hc | hc
    · rw [hc]; exact h1
    · rw [hc]; exact h2
    · exact h3.2 c hc
  | case4 h l rest hnone ih =>
    have hdec : hexDecode (h :: l :: rest) = none := by
      unfold hexDecode
      split
      · rename_i a b bytes ha hb hbytes
        exact absurd trivial (fun _ => hnone a b bytes ha hb hbytes)
      · rfl
    rw [hdec]
    constructor
    · intro hf; simp at hf
    · rintro ⟨hlen, hhex⟩
      exfalso
      have h1 := (hexValue_isSome h).mpr (hhex h (by simp))
      have h2 := (hexValue_isSome l).mpr (hhex l (by simp))
      have h3 := ih.mpr ⟨by simp at hlen; omega, fun c hc => hhex c (by simp [hc])⟩
      obtain ⟨a, ha⟩ := Option.isSome_iff_exists.mp h1
      obtain ⟨b, hb⟩ := Option.isSome_iff_exists.mp h2
      obtain ⟨bytes, hbytes⟩ := Option.isSome_iff_exists.mp h3
      exact hnone a b bytes ha hb hbytes

/-- Hexadecimal digits are one byte each. -/
theorem utf8ByteSize_hex (cs : List Char) (h : IsHex cs) :
    String.utf8ByteSize.go cs = cs.length := by
  induction cs with
  | nil => rfl
  | cons c cs ih =>
    have hc := h c (List.mem_cons_self c cs)
    have hsize := utf8Size_ascii c (by omega)
    have hrest := ih (fun x hx => h x (List.mem_cons_of_mem c hx))
    show String.utf8ByteSize.go cs + c.utf8Size = cs.length + 1
    rw [hsize, hrest]

/-- The function `IsObjectIdHex` accepts exactly the strings of 24 hexadecimal
characters. -/
theorem isObjectIdHex_iff (s : String) :
    IsObjectIdHex s = true ↔ (s.data.length = 24 ∧ IsHex s.data) := by
  have hsize : s.utf8ByteSize = String.utf8ByteSize.go s.data := by
    cases s; rfl
  unfold IsObjectIdHex
  rw [Bool.and_eq_true, decide_eq_true_iff, hexDecode_isSome, hsize]
  constructor
  · rintro ⟨h24, _, hhex⟩
    rw [utf8ByteSize_hex s.data hhex] at h24
    exact ⟨h24, hhex⟩
  · rintro ⟨h24, hhex⟩
    rw [utf8ByteSize_hex s.data hhex]
    exact ⟨h24, by omega, hhex⟩

/-- The id of the path `/orders/<id>` is `<id>`. -/
theorem pathID_orders (id : String) : pathID ("/orders/" ++ id) = Outcome.returned id := by
  unfold pathID
  rw [String.data_append]
  have h8 : "/orders/".data = ['/', 'o', 'r', 'd', 'e', 'r', 's', '/'] := rfl
  rw [h8]
  simp

/-- The method `FetchByID` of the mongo repository on an id that is not an
object id in hexadecimal. -/
theorem mongoFetchByID_invalid (id : String) (db : Database)
    (h : ¬ (id.data.length = 24 ∧ IsHex id.data)) :
    mongoOrderRepository.FetchByID id db = ((none, some "Invalid Id"), db) := by
  have hne : IsObjectIdHex id ≠ true := fun hid => h ((isObjectIdHex_iff id).mp hid)
  unfold mongoOrderRepository.FetchByID
  rw [if_pos hne]

/-- The method `patchOrderByID` on a path `/orders/<id>` and a body that
decodes to `m`: the response is decided by `AssignByID id m["status"]`. -/
theorem patchOrderByID_decoded {ω : Type} (h : Usecase ω) (dec : JSONDecoder) (r : Request)
    (id : String) (m : StringMap) (w : ω)
    (hpath : r.Path = "/orders/" ++ id) (hbody : dec.decodeMap r.Body = (m, none)) :
    patchOrderByID h dec r w =
      match h.AssignByID id (mapIndex m "status") w with
      | (Outcome.panicked, w1) => (Outcome.panicked, w1)
      | (Outcome.returned (_, some err), w1) =>
        if err = "not found" ∨ err = "Invalid Id" then
          (Outcome.returned (respondWithError StatusNotFound err), w1)
        else
          (Outcome.returned (respondWithError StatusBadRequest err), w1)
      | (Outcome.returned (res, none), w1) =>
        (Outcome.returned
          { StatusCode := StatusOK,
            ContentType := "application/json; charset=utf-8",
            Body := Payload.objectPointer res }, w1) := by
  unfold patchOrderByID
  rw [hpath, pathID_orders]
  simp only [hbody]

/-! ## Properties of the handler -/

/-- Claim C15.  For every id that is not a string of exactly 24 hexadecimal
characters, `FetchByID` of the mongo repository returns a nil order and the
error "Invalid Id" and leaves the database untouched, its log of operations
included; `AssignByID id "TAKEN"` over that repository returns a nil result and
that error after the fetch alone; and `PATCH /orders/<id>` with a body asking
for TAKEN responds 404 with that error, as it does with "not found" for an
object id that no stored order has. -/
theorem invalid_id_not_found {κ : Type} (id : String)
    (hinvalid : ¬ (id.data.length = 24 ∧ IsHex id.data)) :
    (∀ db : Database,
      mongoOrderRepository.FetchByID id db = ((none, some "Invalid Id"), db)) ∧
    (∀ (drv : Driver) (w : World Database),
      (NewOrderUsecase (NewMongoOrderRepository drv)).AssignByID id "TAKEN" w =
        (Outcome.returned (none, some "Invalid Id"),
          { store := w.store, calls := w.calls ++ [RepoCall.fetchByID id] })) ∧
    (∀ (drv : Driver) (maps : MapsLibrary κ) (env : Env) (dec : JSONDecoder) (r : Request)
        (m : StringMap) (w : World Database),
      r.Path = "/orders/" ++ id → dec.decodeMap r.Body = (m, none) →
      mapIndex m "status" = "TAKEN" →
      patchOrderByID ((NewOrderUsecase (NewMongoOrderRepository drv)).toUsecase maps env)
          dec r w =
        (Outcome.returned
          { StatusCode := 404,
            ContentType := "application/json; charset=utf-8",
            Body := Payload.object [("error", "Invalid Id")] },
          { store := w.store, calls := w.calls ++ [RepoCall.fetchByID id] })) ∧
    (∀ (drv : Driver) (maps : MapsLibrary κ) (env : Env) (dec : JSONDecoder) (r : Request)
        (m : StringMap) (w : World Database) (id2 : String),
      r.Path = "/orders/" ++ id2 → dec.decodeMap r.Body = (m, none) →
      mapIndex m "status" = "TAKEN" → IsObjectIdHex id2 = true →
      findId (ObjectIdHex id2) w.store.docs = none →
      (patchOrderByID ((NewOrderUsecase (NewMongoOrderRepository drv)).toUsecase maps env)
          dec r w).1 =
        Outcome.returned
          { StatusCode := 404,
            ContentType := "application/json; charset=utf-8",
            Body := Payload.object [("error", "not found")] }) := by
  have hassign : ∀ (drv : Driver) (w : World Database),
      (NewOrderUsecase (NewMongoOrderRepository drv)).AssignByID id "TAKEN" w =
        (Outcome.returned (none, some "Invalid Id"),
          { store := w.store, calls := w.calls ++ [RepoCall.fetchByID id] }) := by
    intro drv w
    rw [assignByID_taken_unfold]
    simp only [callFetchByID, NewOrderUsecase, NewMongoOrderRepository,
      mongoFetchByID_invalid id w.store hinvalid]
  refine ⟨fun db => mongoFetchByID_invalid id db hinvalid, hassign, ?_, ?_⟩
  · intro drv maps env dec r m w hpath hbody hstatus
    rw [patchOrderByID_decoded _ dec r id m w hpath hbody, hstatus]
    have h := hassign drv w
    simp only [OrderUsecase.toUsecase, h]
    rfl
  · intro drv maps env dec r m w id2 hpath hbody hstatus hvalid hmissing
    rw [patchOrderByID_decoded _ dec r id2 m w hpath hbody, hstatus]
    have h : (NewOrderUsecase (NewMongoOrderRepository drv)).AssignByID id2 "TAKEN" w =
        (Outcome.returned (none, some "not found"),
          { store := { w.store with log := w.store.log ++ [DBCall.findId (ObjectIdHex id2)] },
            calls := w.calls ++ [RepoCall.fetchByID id2] }) := by
      rw [assignByID_taken_unfold]
      simp only [callFetchByID, NewOrderUsecase, NewMongoOrderRepository,
        mongoOrderRepository.FetchByID, hvalid, hmissing]
      simp [errNotFound]
    simp only [OrderUsecase.toUsecase, h]
    rfl

/-- Claim C15 at concrete inputs: the id "1234" of the handler tests on an
empty database. -/
theorem invalid_id_not_found_witness :
    mongoOrderRepository.FetchByID "1234" emptyDatabase =
      ((none, some "Invalid Id"), emptyDatabase) ∧
    patchOrderByID ((NewOrderUsecase (NewMongoOrderRepository stubDriver)).toUsecase
        (stubMaps (testAnswer "OK")) testEnv)
        (stubDecoder ([("status", "TAKEN")], none)) (patchRequest "1234") mongoWorld0 =
      (Outcome.returned
        { StatusCode := 404,
          ContentType := "application/json; charset=utf-8",
          Body := Payload.object [("error", "Invalid Id")] },
        { store := mongoWorld0.store,
          calls := mongoWorld0.calls ++ [RepoCall.fetchByID "1234"] }) :=
  ⟨(@invalid_id_not_found Unit "1234" (fun h => absurd h.1 (by decide))).1 emptyDatabase,
    (@invalid_id_not_found Unit "1234" (fun h => absurd h.1 (by decide))).2.2.1 stubDriver
      (stubMaps (testAnswer "OK")) testEnv (stubDecoder ([("status", "TAKEN")], none))
      (patchRequest "1234") [("status", "TAKEN")] mongoWorld0 rfl rfl (by decide)⟩

/-- Claim C16.  For a `PATCH /orders/<id>` request whose body decodes to the
map `m`, `patchOrderByID` calls `AssignByID id m["status"]` and leaves the state
that call leaves; when the call returns a result and no error the response is
200 with the returned map as body; when it returns an error whose text is "not
found" or "Invalid Id" the response is 404; for every other error it is 400;
and in both error cases the body is the object with the single entry error =
the error text. -/
theorem patchOrderByID_outcome {ω : Type} (h : Usecase ω) (dec : JSONDecoder) (r : Request)
    (id : String) (m : StringMap) (w : ω)
    (hpath : r.Path = "/orders/" ++ id) (hbody : dec.decodeMap r.Body = (m, none)) :
    (∀ (res : Option StringMap) (w1 : ω),
      h.AssignByID id (mapIndex m "status") w = (Outcome.returned (res, none), w1) →
      patchOrderByID h dec r w =
        (Outcome.returned
          { StatusCode := 200,
            ContentType := "application/json; charset=utf-8",
            Body := Payload.objectPointer res }, w1)) ∧
    (∀ (res : Option StringMap) (err : String) (w1 : ω),
      h.AssignByID id (mapIndex m "status") w = (Outcome.returned (res, some err), w1) →
      (err = "not found" ∨ err = "Invalid Id") →
      patchOrderByID h dec r w =
        (Outcome.returned
          { StatusCode := 404,
            ContentType := "application/json; charset=utf-8",
            Body := Payload.object [("error", err)] }, w1)) ∧
    (∀ (res : Option StringMap) (err : String) (w1 : ω),
      h.AssignByID id (mapIndex m "status") w = (Outcome.returned (res, some err), w1) →
      err ≠ "not found" → err ≠ "Invalid Id" →
      patchOrderByID h dec r w =
        (Outcome.returned
          { StatusCode := 400,
            ContentType := "application/json; charset=utf-8",
            Body := Payload.object [("error", err)] }, w1)) := by
  rw [patchOrderByID_decoded h dec r id m w hpath hbody]
  refine ⟨?_, ?_, ?_⟩
  · intro res w1 hcall
    rw [hcall]
    rfl
  · intro res err w1 hcall herr
    rw [hcall]
    simp only [if_pos herr]
    rfl
  · intro res err w1 hcall h1 h2
    rw [hcall]
    have hneither : ¬ (err = "not found" ∨ err = "Invalid Id") := fun hor =>
      hor.elim h1 h2
    simp only [if_neg hneither]
    rfl

/-- Claim C16 at the inputs of the handler tests of `PATCH /orders/id`, over
the usecase with a stub repository: an unassigned order gives 200 and the
success map, an order already taken gives 400, and a repository answering
"not found" gives 404. -/
theorem patchOrderByID_outcome_witness :
    (patchOrderByID ((NewOrderUsecase (stubRepository (some (testOrder "UNASSIGNED"),
        none))).toUsecase (stubMaps (testAnswer "OK")) testEnv)
        (stubDecoder ([("status", "TAKEN")], none)) (patchRequest "1234") world0).1 =
      Outcome.returned
        { StatusCode := 200,
          ContentType := "application/json; charset=utf-8",
          Body := Payload.objectPointer (some [("status", "SUCCESS")]) } ∧
    (patchOrderByID ((NewOrderUsecase (stubRepository (some zeroOrder,
        some "not found"))).toUsecase (stubMaps (testAnswer "OK")) testEnv)
        (stubDecoder ([("status", "TAKEN")], none)) (patchRequest "1234") world0).1 =
      Outcome.returned
        { StatusCode := 404,
          ContentType := "application/json; charset=utf-8",
          Body := Payload.object [("error", "not found")] } ∧
    (patchOrderByID ((NewOrderUsecase (stubRepository (some (testOrder "TAKEN"),
        none))).toUsecase (stubMaps (testAnswer "OK")) testEnv)
        (stubDecoder ([("status", "TAKEN")], none)) (patchRequest "1234") world0).1 =
      Outcome.returned
        { StatusCode := 400,
          ContentType := "application/json; charset=utf-8",
          Body := Payload.object [("error", "Order is already assigned")] } :=
  ⟨congrArg Prod.fst ((patchOrderByID_outcome
      ((NewOrderUsecase (stubRepository (some (testOrder "UNASSIGNED"), none))).toUsecase
        (stubMaps (testAnswer "OK")) testEnv)
      (stubDecoder ([("status", "TAKEN")], none)) (patchRequest "1234") "1234"
      [("status", "TAKEN")] world0 rfl rfl).1 (some [("status", "SUCCESS")])
      { store := (),
        calls := [RepoCall.fetchByID "1234",
          RepoCall.updateByID (testOrder "TAKEN")] } rfl),
    congrArg Prod.fst ((patchOrderByID_outcome
      ((NewOrderUsecase (stubRepository (some zeroOrder, some "not found"))).toUsecase
        (stubMaps (testAnswer "OK")) testEnv)
      (stubDecoder ([("status", "TAKEN")], none)) (patchRequest "1234") "1234"
      [("status", "TAKEN")] world0 rfl rfl).2.1 none "not found"
      { store := (), calls := [RepoCall.fetchByID "1234"] } rfl (Or.inl rfl)),
    congrArg Prod.fst ((patchOrderByID_outcome
      ((NewOrderUsecase (stubRepository (some (testOrder "TAKEN"), none))).toUsecase
        (stubMaps (testAnswer "OK")) testEnv)
      (stubDecoder ([("status", "TAKEN")], none)) (patchRequest "1234") "1234"
      [("status", "TAKEN")] world0 rfl rfl).2.2 none "Order is already assigned"
      { store := (), calls := [RepoCall.fetchByID "1234"] } rfl (by decide)
      (by decide))⟩

/-- The state after `getOrdersInRange` is the state after its one call of
`FetchByRange`. -/
theorem getOrdersInRange_state {ω : Type} (h : Usecase ω) (page limit : Int) (w : ω) :
    (getOrdersInRange h page limit w).2 = (h.FetchByRange page limit w).2 := by
  unfold getOrdersInRange
  rcases hcall : h.FetchByRange page limit w with ⟨⟨res, err⟩, w1⟩
  cases err <;> rfl

/-- The value read for a query parameter that is absent or has a first value. -/
theorem paramValue_first (param : Option (List String)) (defaultVal value : String)
    (h : (param = none ∧ value = defaultVal) ∨ ∃ rest, param = some (value :: rest)) :
    paramValue param defaultVal = Outcome.returned value := by
  rcases h with ⟨hnone, hval⟩ | ⟨rest, hsome⟩
  · rw [hnone, hval]
    rfl
  · rw [hsome]
    rfl

/-- Claim C17, as amended.  For a `GET /orders` request let the page value be
the first value of the `page` query parameter, or "1" when it is absent, and
the limit value the first value of `limit`, or "10" when it is absent, these
defaults being the integers 1 and 10.  When `Atoi` accepts both values,
`getOrders` calls `FetchByRange` with the two integers, which for decimal
numerals are the numbers they denote.  When the page value is not accepted the
response is 400 with the error "page parameter should be a number"; when the
page value is accepted and the limit value is not, it is 400 with the error
"limit parameter should be a number"; in both cases the state is untouched and
the response does not depend on the usecase. -/
theorem getOrders_parameters {ω : Type} (h : Usecase ω) (r : Request) (w : ω)
    (pageVal limitVal : String)
    (hpage : (r.Query "page" = none ∧ pageVal = "1") ∨
      ∃ rest, r.Query "page" = some (pageVal :: rest))
    (hlimit : (r.Query "limit" = none ∧ limitVal = "10") ∨
      ∃ rest, r.Query "limit" = some (limitVal :: rest)) :
    (∀ page limit : Int, Atoi pageVal = (page, none) → Atoi limitVal = (limit, none) →
      getOrders h r w =
        (Outcome.returned (getOrdersInRange h page limit w).1,
          (getOrdersInRange h page limit w).2) ∧
      (getOrders h r w).2 = (h.FetchByRange page limit w).2) ∧
    ((Atoi pageVal).2 ≠ none →
      getOrders h r w =
        (Outcome.returned
          { StatusCode := 400,
            ContentType := "application/json; charset=utf-8",
            Body := Payload.object [("error", "page parameter should be a number")] }, w)) ∧
    ((Atoi pageVal).2 = none → (Atoi limitVal).2 ≠ none →
      getOrders h r w =
        (Outcome.returned
          { StatusCode := 400,
            ContentType := "application/json; charset=utf-8",
            Body := Payload.object [("error", "limit parameter should be a number")] }, w)) ∧
    (Atoi "1" = (1, none) ∧ Atoi "10" = (10, none)) ∧
    (pageVal.data ≠ [] → IsDecimal pageVal.data → decimalFrom 0 pageVal.data < 2 ^ 63 →
      Atoi pageVal = (((decimalFrom 0 pageVal.data : Nat) : Int), none)) ∧
    (limitVal.data ≠ [] → IsDecimal limitVal.data → decimalFrom 0 limitVal.data < 2 ^ 63 →
      Atoi limitVal = (((decimalFrom 0 limitVal.data : Nat) : Int), none)) := by
  have hp := paramValue_first (r.Query "page") "1" pageVal hpage
  have hl := paramValue_first (r.Query "limit") "10" limitVal hlimit
  refine ⟨?_, ?_, ?_, ⟨by decide, by decide⟩, Atoi_decimal pageVal, Atoi_decimal limitVal⟩
  · intro page limit hpa hla
    have hget : getOrders h r w =
        (Outcome.returned (getOrdersInRange h page limit w).1,
          (getOrdersInRange h page limit w).2) := by
      unfold getOrders
      simp only [hp, hl, hpa, hla]
    refine ⟨hget, ?_⟩
    rw [hget]
    exact getOrdersInRange_state h page limit w
  · intro hbad
    unfold getOrders
    simp only [hp, hl]
    rcases hpa : Atoi pageVal with ⟨page, err⟩
    rw [hpa] at hbad
    cases err with
    | none => exact absurd rfl hbad
    | some e => rfl
  · intro hgood hbad
    unfold getOrders
    simp only [hp, hl]
    rcases hpa : Atoi pageVal with ⟨page, err⟩
    rw [hpa] at hgood
    simp only at hgood
    subst hgood
    rcases hla : Atoi limitVal with ⟨limit, err2⟩
    rw [hla] at hbad
    cases err2 with
    | none => exact absurd rfl hbad
    | some e => rfl

/-- Claim C17 at the inputs of the handler tests of `GET /orders`: no
parameters, `page=x`, and `page=1&limit=x`. -/
theorem getOrders_parameters_witness :
    (getOrders ((NewOrderUsecase (stubRepository (none, none))).toUsecase
        (stubMaps (testAnswer "OK")) testEnv) (getRequest none none) world0).2 =
      (((NewOrderUsecase (stubRepository (none, none))).toUsecase
        (stubMaps (testAnswer "OK")) testEnv).FetchByRange 1 10 world0).2 ∧
    getOrders ((NewOrderUsecase (stubRepository (none, none))).toUsecase
        (stubMaps (testAnswer "OK")) testEnv) (getRequest (some ["x"]) none) world0 =
      (Outcome.returned
        { StatusCode := 400,
          ContentType := "application/json; charset=utf-8",
          Body := Payload.object [("error", "page parameter should be a number")] }, world0) ∧
    getOrders ((NewOrderUsecase (stubRepository (none, none))).toUsecase
        (stubMaps (testAnswer "OK")) testEnv) (getRequest (some ["1"]) (some ["x"])) world0 =
      (Outcome.returned
        { StatusCode := 400,
          ContentType := "application/json; charset=utf-8",
          Body := Payload.object [("error", "limit parameter should be a number")] }, world0) :=
  ⟨((getOrders_parameters _ (getRequest none none) world0 "1" "10"
      (Or.inl ⟨rfl, rfl⟩) (Or.inl ⟨rfl, rfl⟩)).1 1 10 (by decide) (by decide)).2,
    (getOrders_parameters _ (getRequest (some ["x"]) none) world0 "x" "10"
      (Or.inr ⟨[], rfl⟩) (Or.inl ⟨rfl, rfl⟩)).2.1 (by decide),
    (getOrders_parameters _ (getRequest (some ["1"]) (some ["x"])) world0 "1" "x"
      (Or.inr ⟨[], rfl⟩) (Or.inr ⟨[], rfl⟩)).2.2.1 (by decide) (by decide)⟩

/-- Claim C17 as stated fails.  For `GET /orders?page=x&limit=y` the limit
value is not an integer, and the response is 400 with the error of the page
parameter, not with the error of the limit parameter. -/
theorem getOrders_page_checked_first :
    (Atoi "y").2 ≠ none ∧
    (getOrders ((NewOrderUsecase (stubRepository (none, none))).toUsecase
        (stubMaps (testAnswer "OK")) testEnv)
        (getRequest (some ["x"]) (some ["y"])) world0).1 =
      Outcome.returned
        { StatusCode := 400,
          ContentType := "application/json; charset=utf-8",
          Body := Payload.object [("error", "page parameter should be a number")] } ∧
    (getOrders ((NewOrderUsecase (stubRepository (none, none))).toUsecase
        (stubMaps (testAnswer "OK")) testEnv)
        (getRequest (some ["x"]) (some ["y"])) world0).1 ≠
      Outcome.returned
        { StatusCode := 400,
          ContentType := "application/json; charset=utf-8",
          Body := Payload.object [("error", "limit parameter should be a number")] } := by
  refine ⟨by decide, by decide, by decide⟩

/-! ## The skip of `FetchByRange` and the recovery of the distance lookup -/

/-- Claim C18, as amended.  For every page at least 1 within the Go `int`
range, every non-zero limit and every configured page size `P` at least 1 such
that `(page - 1) * P` is below `2 ^ 63`, the skip that `FetchByRange` forwards
to the repository is the integer `(page - 1) * P`: it is not negative and
neither the subtraction nor the multiplication wraps around. -/
theorem fetchByRange_skip_exact {σ : Type} (ou : OrderUsecase σ) (env : Env) (page limit : Int)
    (w : World σ) (hpage : 1 ≤ page) (hint : page < 2 ^ 63) (hl : limit ≠ 0)
    (hsize : 1 ≤ (Atoi (pageSize env)).1)
    (hfit : (page - 1) * (Atoi (pageSize env)).1 < 2 ^ 63) :
    (ou.FetchByRange env page limit w).2.calls =
        w.calls ++ [RepoCall.fetchByRange ((page - 1) * (Atoi (pageSize env)).1)
          (min limit (Atoi (pageSize env)).1)] ∧
    0 ≤ (page - 1) * (Atoi (pageSize env)).1 ∧
    subInt page 1 = page - 1 ∧
    mulInt (page - 1) (Atoi (pageSize env)).1 = (page - 1) * (Atoi (pageSize env)).1 := by
  have hnonneg : 0 ≤ (page - 1) * (Atoi (pageSize env)).1 :=
    Int.mul_nonneg (by omega) (by omega)
  have hsub : subInt page 1 = page - 1 := by
    unfold subInt
    exact wrapInt_of_range _ (by omega) (by omega)
  have hmul : mulInt (page - 1) (Atoi (pageSize env)).1
      = (page - 1) * (Atoi (pageSize env)).1 := by
    unfold mulInt
    exact wrapInt_of_range _ (by omega) hfit
  have hmin : (if limit > (Atoi (pageSize env)).1 then (Atoi (pageSize env)).1 else limit)
      = min limit (Atoi (pageSize env)).1 := by
    by_cases hgt : limit > (Atoi (pageSize env)).1
    · rw [if_pos hgt, min_eq_right (le_of_lt hgt)]
    · rw [if_neg hgt, min_eq_left (not_lt.mp hgt)]
  refine ⟨?_, hnonneg, hsub, hmul⟩
  rw [fetchByRange_calls ou env page limit w hl, hsub, hmul, hmin]

/-- Claim C18 at the input of the test "Successfully adjust limit to pagesize
and fetch orders in range": page 2, limit 11 and page size 10 give skip 10. -/
theorem fetchByRange_skip_exact_witness :
    ((NewOrderUsecase (stubRepository (none, none))).FetchByRange testEnv 2 11 world0).2.calls =
        world0.calls ++ [RepoCall.fetchByRange ((2 - 1) * (Atoi (pageSize testEnv)).1)
          (min 11 (Atoi (pageSize testEnv)).1)] ∧
    (0 : Int) ≤ (2 - 1) * (Atoi (pageSize testEnv)).1 ∧
    (2 - 1) * (Atoi (pageSize testEnv)).1 = 10 :=
  ⟨(fetchByRange_skip_exact (NewOrderUsecase (stubRepository (none, none))) testEnv 2 11 world0
      (by decide) (by decide) (by decide) (by decide) (by decide)).1,
    (fetchByRange_skip_exact (NewOrderUsecase (stubRepository (none, none))) testEnv 2 11 world0
      (by decide) (by decide) (by decide) (by decide) (by decide)).2.1,
    by decide⟩

/-- Claim C18 as stated fails.  With page size 10, `GET /orders?page=0&limit=5`
passes the handler and the repository is queried with skip -10; and
`GET /orders?page=4611686018427387905&limit=5` passes the handler and the
product `(page - 1) * 10` wraps around: the repository is queried with skip
`-9223372036854775808`. -/
theorem fetchByRange_skip_can_be_negative :
    Atoi "0" = (0, none) ∧ (Atoi (pageSize emptyEnv)).1 = 10 ∧
    (getOrders ((NewOrderUsecase (stubRepository (none, none))).toUsecase
        (stubMaps (testAnswer "OK")) emptyEnv)
        (getRequest (some ["0"]) (some ["5"])) world0).2.calls =
      [RepoCall.fetchByRange (-10) 5] ∧
    Atoi "4611686018427387905" = (4611686018427387905, none) ∧
    (getOrders ((NewOrderUsecase (stubRepository (none, none))).toUsecase
        (stubMaps (testAnswer "OK")) emptyEnv)
        (getRequest (some ["4611686018427387905"]) (some ["5"])) world0).2.calls =
      [RepoCall.fetchByRange (-9223372036854775808) 5] ∧
    ((4611686018427387905 : Int) - 1) * 10 ≠ -9223372036854775808 := by
  refine ⟨by decide, by decide, by decide, by decide, by decide, by decide⟩

/-- The lookup when the client is constructed, both slices have at least two
elements, the distance matrix call returns no error, and reading the first
element of the first row of the response panics. -/
theorem getDistance_no_first_element {κ : Type} (maps : MapsLibrary κ) (env : Env)
    (a b c d : String) (ra rd : List String) (client : κ)
    (resp : Option DistanceMatrixResponse)
    (hclient : maps.NewClient (env "GOOGLE_API_KEY") (env "GOOGLE_SERVER_URL") = (client, none))
    (hcall : maps.DistanceMatrix client
      { Origins := [a ++ "," ++ b], Destinations := [c ++ "," ++ d] } = (resp, none))
    (hfirst : firstElement resp = Outcome.panicked) :
    getDistanceFromExternalService maps env (a :: b :: ra) (c :: d :: rd) =
      (0, some errDistanceFormat) := by
  unfold getDistanceFromExternalService getDistanceBody
  simp only [hclient, joinCoordinates_pair, hcall, hfirst]

/-- Claim C19.  Every panic of the body of `getDistanceFromExternalService` is
recovered: the function returns distance 0 and the error "Unable to fetch
distance from Google APIs. Please ensure data is in correct format".  This is
so when the client is constructed and origin or destination has fewer than two
elements, and when the distance matrix call succeeds with a response whose
rows list is empty, whose first row has no elements, or whose first element is
a nil pointer; and in each of these cases `Store` returns a nil order and that
error and makes no repository call. -/
theorem getDistance_recovers {σ κ : Type} (ou : OrderUsecase σ) (maps : MapsLibrary κ)
    (env : Env) (req : OrderRequest) (w : World σ) :
    (getDistanceBody maps env req.Origin req.Destination = Outcome.panicked →
      getDistanceFromExternalService maps env req.Origin req.Destination =
        (0, some
          "Unable to fetch distance from Google APIs. Please ensure data is in correct format")) ∧
    ((maps.NewClient (env "GOOGLE_API_KEY") (env "GOOGLE_SERVER_URL")).2 = none →
      (req.Origin.length < 2 ∨ req.Destination.length < 2) →
      getDistanceFromExternalService maps env req.Origin req.Destination =
        (0, some
          "Unable to fetch distance from Google APIs. Please ensure data is in correct format") ∧
      ou.Store maps env req w =
        ((none, some
          "Unable to fetch distance from Google APIs. Please ensure data is in correct format"),
          w)) ∧
    (∀ (client : κ) (a b c d : String) (ra rd : List String) (resp : DistanceMatrixResponse),
      req.Origin = a :: b :: ra → req.Destination = c :: d :: rd →
      maps.NewClient (env "GOOGLE_API_KEY") (env "GOOGLE_SERVER_URL") = (client, none) →
      maps.DistanceMatrix client
        { Origins := [a ++ "," ++ b], Destinations := [c ++ "," ++ d] } = (some resp, none) →
      (resp.Rows = [] ∨
        (∃ row rows, resp.Rows = row :: rows ∧ row.Elements = []) ∨
        (∃ row rows es, resp.Rows = row :: rows ∧ row.Elements = none :: es)) →
      getDistanceFromExternalService maps env req.Origin req.Destination =
        (0, some
          "Unable to fetch distance from Google APIs. Please ensure data is in correct format") ∧
      ou.Store maps env req w =
        ((none, some
          "Unable to fetch distance from Google APIs. Please ensure data is in correct format"),
          w)) := by
  refine ⟨?_, ?_, ?_⟩
  · intro hpanic
    unfold getDistanceFromExternalService
    rw [hpanic]
    rfl
  · intro hclient hshort
    have hlookup := getDistance_short maps env req.Origin req.Destination hclient hshort
    exact ⟨hlookup, store_of_lookup_error ou maps env req w 0 _ hlookup⟩
  · intro client a b c d ra rd resp ho hd hclient hcall hempty
    have hfirst : firstElement (some resp) = Outcome.panicked := by
      rcases hempty with hrows | ⟨row, rows, hrows, helems⟩ | ⟨row, rows, es, hrows, helems⟩
      · simp [firstElement, index, hrows]
      · simp [firstElement, index, hrows, helems]
      · simp [firstElement, index, hrows, helems]
    have hlookup : getDistanceFromExternalService maps env req.Origin req.Destination
        = (0, some errDistanceFormat) := by
      rw [ho, hd]
      exact getDistance_no_first_element maps env a b c d ra rd client (some resp)
        hclient hcall hfirst
    exact ⟨hlookup, store_of_lookup_error ou maps env req w 0 _ hlookup⟩

/-- Claim C19 at concrete inputs: a one-element origin, and a response with no
rows. -/
theorem getDistance_recovers_witness :
    (NewOrderUsecase (stubRepository (none, none))).Store (stubMaps (testAnswer "OK")) testEnv
        { Origin := ["1"], Destination := ["3", "4"] } world0 =
      ((none, some
        "Unable to fetch distance from Google APIs. Please ensure data is in correct format"),
        world0) ∧
    (NewOrderUsecase (stubRepository (none, none))).Store
        (stubMaps (some { Rows := [] }, none)) testEnv
        { Origin := ["1", "2"], Destination := ["3", "4"] } world0 =
      ((none, some
        "Unable to fetch distance from Google APIs. Please ensure data is in correct format"),
        world0) :=
  ⟨((getDistance_recovers (NewOrderUsecase (stubRepository (none, none)))
      (stubMaps (testAnswer "OK")) testEnv { Origin := ["1"], Destination := ["3", "4"] }
      world0).2.1 (by decide) (Or.inl (by decide))).2,
    ((getDistance_recovers (NewOrderUsecase (stubRepository (none, none)))
      (stubMaps (some { Rows := [] }, none)) testEnv
      { Origin := ["1", "2"], Destination := ["3", "4"] } world0).2.2
      () "1" "2" "3" "4" [] [] { Rows := [] } rfl rfl (by decide) rfl (Or.inl rfl)).2⟩

/-! ## The life of an order over the mongo repository -/

/-- The document found for an id has that id. -/
theorem findId_id (id : String) (docs : List Order) (o : Order)
    (h : findId id docs = some o) : o.ID = id := by
  unfold findId at h
  have hp := List.find?_some h
  simpa using hp

/-- A document found is still found after documents are added behind. -/
theorem findId_append (id : String) (docs added : List Order) (o : Order)
    (h : findId id docs = some o) : findId id (docs ++ added) = some o := by
  unfold findId at h ⊢
  rw [List.find?_append, h]
  rfl

/-- Replacing the document of one id does not change what is found for
another id. -/
theorem findId_replaceId_other (key id : String) (doc : Order) (docs : List Order)
    (hdoc : doc.ID = id) (hne : key ≠ id) :
    findId key (replaceId id doc docs) = findId key docs := by
  induction docs with
  | nil => rfl
  | cons o rest ih =>
    unfold replaceId
    by_cases ho : o.ID = id
    · rw [if_pos ho]
      have h1 : ¬ (doc.ID = key) := fun h => hne (h.symm.trans hdoc)
      have h2 : ¬ (o.ID = key) := fun h => hne (h.symm.trans ho)
      simp [findId, List.find?_cons, h1, h2]
    · rw [if_neg ho]
      unfold findId at ih ⊢
      simp only [List.find?_cons]
      rw [ih]

/-- After replacing the document of an id that is present, the replacement is
what is found for that id. -/
theorem findId_replaceId_same (id : String) (doc o : Order) (docs : List Order)
    (hdoc : doc.ID = id) (hfound : findId id docs = some o) :
    findId id (replaceId id doc docs) = some doc := by
  induction docs with
  | nil => simp [findId] at hfound
  | cons x rest ih =>
    unfold replaceId
    by_cases hx : x.ID = id
    · rw [if_pos hx]
      simp [findId, List.find?_cons, hdoc]
    · rw [if_neg hx]
      have hrest : findId id rest = some o := by
        simpa [findId, List.find?_cons, hx] using hfound
      have := ih hrest
      simpa [findId, List.find?_cons, hx] using this

/-- Every order is kept by leaving it as it is. -/
theorem keeps_refl (o : Order) : Keeps o o := ⟨rfl, rfl, Or.inl rfl⟩

/-- Every list of orders is kept by leaving it as it is. -/
theorem forall2_keeps_refl (docs : List Order) : List.Forall₂ Keeps docs docs := by
  induction docs with
  | nil => exact List.Forall₂.nil
  | cons o rest ih => exact List.Forall₂.cons (keeps_refl o) ih

/-- An order that is TAKEN is kept only by leaving it as it is. -/
theorem keeps_taken (a b : Order) (h : Keeps a b) (ht : a.Status = "TAKEN") : b = a := by
  obtain ⟨hid, hdist, hstatus⟩ := h
  have hs : b.Status = a.Status := by
    rcases hstatus with hs | ⟨hu, _⟩
    · exact hs
    · rw [ht] at hu
      exact absurd hu (by decide)
  cases a
  cases b
  simp only at hid hdist hs
  simp [hid, hdist, hs]

/-- Replacing the first document of an id, when it is UNASSIGNED, by the same
document with status TAKEN keeps every document. -/
theorem replaceId_keeps (id : String) (o : Order) (docs : List Order)
    (hfound : findId id docs = some o) (hstatus : o.Status = "UNASSIGNED") :
    List.Forall₂ Keeps docs (replaceId id { o with Status := "TAKEN" } docs) := by
  induction docs with
  | nil => exact List.Forall₂.nil
  | cons x rest ih =>
    unfold replaceId
    by_cases hx : x.ID = id
    · rw [if_pos hx]
      have hxo : x = o := by
        simpa [findId, List.find?_cons, hx] using hfound
      rw [hxo]
      exact List.Forall₂.cons ⟨rfl, rfl, Or.inr ⟨hstatus, rfl⟩⟩ (forall2_keeps_refl rest)
    · rw [if_neg hx]
      have hrest : findId id rest = some o := by
        simpa [findId, List.find?_cons, hx] using hfound
      exact List.Forall₂.cons (keeps_refl x) (ih hrest)

/-- The documents after `Store` over the mongo repository: unchanged, or with
one UNASSIGNED order added behind. -/
theorem mongo_store_docs {κ : Type} (drv : Driver) (maps : MapsLibrary κ) (env : Env)
    (req : OrderRequest) (w : World Database) :
    ∃ added, ((mongoUsecase drv).Store maps env req w).2.store.docs = w.store.docs ++ added ∧
      ∀ o ∈ added, o.Status = "UNASSIGNED" := by
  unfold OrderUsecase.Store
  rcases hlookup : getDistanceFromExternalService maps env req.Origin req.Destination
    with ⟨dist, err⟩
  cases err with
  | some e => exact ⟨[], by simp, by simp⟩
  | none =>
    simp only [callStore, mongoUsecase, NewOrderUsecase, NewMongoOrderRepository,
      mongoOrderRepository.Store]
    cases hfound : findId (drv.NewObjectId w.store.counter) w.store.docs with
    | some o => exact ⟨[], by simp, by simp⟩
    | none =>
      refine ⟨[Order.mk (drv.NewObjectId w.store.counter) dist "UNASSIGNED"], ?_, ?_⟩
      · simp [StatusUnassigned]
      · intro o ho
        simp only [List.mem_singleton] at ho
        rw [ho]

/-- The documents after `FetchByRange` over the mongo repository are unchanged. -/
theorem mongo_fetchByRange_docs (drv : Driver) (env : Env) (page limit : Int)
    (w : World Database) :
    ((mongoUsecase drv).FetchByRange env page limit w).2.store.docs = w.store.docs := by
  unfold OrderUsecase.FetchByRange
  by_cases hl : limit = 0
  · simp [hl]
  · simp only [if_neg hl]
    rfl

/-- The method `FetchByID` of the mongo repository on an object id that a
stored document has. -/
theorem mongo_fetch_found (drv : Driver) (id : String) (db : Database) (o : Order)
    (hvalid : IsObjectIdHex id = true) (hfound : findId (ObjectIdHex id) db.docs = some o) :
    (mongoUsecase drv).orderRepository.FetchByID id db =
      ((some o, none), { db with log := db.log ++ [DBCall.findId (ObjectIdHex id)] }) := by
  simp only [mongoUsecase, NewOrderUsecase, NewMongoOrderRepository,
    mongoOrderRepository.FetchByID, hvalid, hfound]
  simp

/-- The method `AssignByID` over the mongo repository on an object id whose
first document is not UNASSIGNED. -/
theorem mongo_assignByID_assigned (drv : Driver) (id : String) (w : World Database) (o : Order)
    (hvalid : IsObjectIdHex id = true)
    (hfound : findId (ObjectIdHex id) w.store.docs = some o)
    (hstatus : o.Status ≠ "UNASSIGNED") :
    (mongoUsecase drv).AssignByID id "TAKEN" w =
      (Outcome.returned (none, some "Order is already assigned"),
        { store := { w.store with log := w.store.log ++ [DBCall.findId (ObjectIdHex id)] },
          calls := w.calls ++ [RepoCall.fetchByID id] }) := by
  have hs : o.Status ≠ StatusUnassigned := hstatus
  rw [assignByID_taken_unfold]
  simp only [callFetchByID, mongo_fetch_found drv id w.store o hvalid hfound]
  rw [if_pos hs]
  rfl

/-- The method `AssignByID` over the mongo repository on an object id whose
first document is UNASSIGNED: the document is replaced by itself with status
TAKEN and the result is the success map. -/
theorem mongo_assignByID_unassigned (drv : Driver) (id : String) (w : World Database)
    (o : Order) (hvalid : IsObjectIdHex id = true)
    (hfound : findId (ObjectIdHex id) w.store.docs = some o)
    (hstatus : o.Status = "UNASSIGNED") :
    ((mongoUsecase drv).AssignByID id "TAKEN" w).1 =
        Outcome.returned (some [("status", "SUCCESS")], none) ∧
    ((mongoUsecase drv).AssignByID id "TAKEN" w).2.store.docs =
        replaceId (ObjectIdHex id) { o with Status := "TAKEN" } w.store.docs := by
  have hs : ¬ (o.Status ≠ StatusUnassigned) := by simp [hstatus, StatusUnassigned]
  have hid : o.ID = ObjectIdHex id := findId_id _ _ _ hfound
  rw [assignByID_taken_unfold]
  simp only [callFetchByID, mongo_fetch_found drv id w.store o hvalid hfound]
  rw [if_neg hs]
  simp only [callUpdateByID, mongoUsecase, NewOrderUsecase, NewMongoOrderRepository,
    mongoOrderRepository.UpdateByID, hid, hfound]
  simp [StatusSuccess, StatusTaken]

/-- The result of `AssignByID` over the mongo repository, by cases: either the
documents are unchanged and the result is not a success, or the status is
TAKEN, the id is an object id whose first document is UNASSIGNED, the result
is the success map, and that document is replaced by itself with status
TAKEN. -/
theorem mongo_assignByID_cases (drv : Driver) (id status : String) (w : World Database) :
    (((mongoUsecase drv).AssignByID id status w).2.store.docs = w.store.docs ∧
      ∀ m, ((mongoUsecase drv).AssignByID id status w).1 ≠ Outcome.returned (some m, none)) ∨
    (status = "TAKEN" ∧ IsObjectIdHex id = true ∧
      ∃ o, findId (ObjectIdHex id) w.store.docs = some o ∧ o.Status = "UNASSIGNED" ∧
        ((mongoUsecase drv).AssignByID id status w).1 =
          Outcome.returned (some [("status", "SUCCESS")], none) ∧
        ((mongoUsecase drv).AssignByID id status w).2.store.docs =
          replaceId (ObjectIdHex id) { o with Status := "TAKEN" } w.store.docs) := by
  by_cases hst : status = "TAKEN"
  · subst hst
    by_cases hvalid : IsObjectIdHex id = true
    · cases hfound : findId (ObjectIdHex id) w.store.docs with
      | none =>
        left
        have h : (mongoUsecase drv).AssignByID id "TAKEN" w =
            (Outcome.returned (none, some "not found"),
              { store := { w.store with
                  log := w.store.log ++ [DBCall.findId (ObjectIdHex id)] },
                calls := w.calls ++ [RepoCall.fetchByID id] }) := by
          rw [assignByID_taken_unfold]
          simp only [callFetchByID, mongoUsecase, NewOrderUsecase, NewMongoOrderRepository,
            mongoOrderRepository.FetchByID, hvalid, hfound]
          simp [errNotFound]
        rw [h]
        exact ⟨rfl, by simp⟩
      | some o =>
        by_cases hs : o.Status = "UNASSIGNED"
        · right
          exact ⟨rfl, hvalid, o, rfl,  hs,
            mongo_assignByID_unassigned drv id w o hvalid hfound hs⟩
        · left
          rw [mongo_assignByID_assigned drv id w o hvalid hfound hs]
          exact ⟨rfl, by simp⟩
    · left
      have h : (mongoUsecase drv).AssignByID id "TAKEN" w =
          (Outcome.returned (none, some "Invalid Id"),
            { store := w.store, calls := w.calls ++ [RepoCall.fetchByID id] }) := by
        rw [assignByID_taken_unfold]
        simp only [callFetchByID, mongoUsecase, NewOrderUsecase, NewMongoOrderRepository,
          mongoOrderRepository.FetchByID, hvalid]
        simp
      rw [h]
      exact ⟨rfl, by simp⟩
  · left
    unfold OrderUsecase.AssignByID
    rw [if_pos (status_rejected hst)]
    exact ⟨rfl, by simp⟩

/-- The world after a sequence of calls followed by one more call. -/
theorem run_append {σ κ : Type} (ou : OrderUsecase σ) (maps : MapsLibrary κ) (env : Env)
    (cs : List Call) (c : Call) (w : World σ) :
    run ou maps env (cs ++ [c]) w = step ou maps env c (run ou maps env cs w) := by
  unfold run
  rw [List.foldl_append]
  rfl

/-- One call over the mongo repository: orders present before are kept, and
the orders added are UNASSIGNED; a call other than `Store` adds none, and a
call other than `AssignByID` leaves the orders present as they are. -/
theorem mongo_step_docs {κ : Type} (drv : Driver) (maps : MapsLibrary κ) (env : Env) (c : Call)
    (w : World Database) :
    ∃ kept added,
      (step (mongoUsecase drv) maps env c w).store.docs = kept ++ added ∧
      List.Forall₂ Keeps w.store.docs kept ∧ (∀ o ∈ added, o.Status = "UNASSIGNED") ∧
      ((∀ orderReq, c ≠ Call.store orderReq) → added = []) ∧
      ((∀ id status, c ≠ Call.assignByID id status) → kept = w.store.docs) := by
  cases c with
  | store orderReq =>
    obtain ⟨added, hdocs, hadded⟩ := mongo_store_docs drv maps env orderReq w
    exact ⟨w.store.docs, added, hdocs, forall2_keeps_refl _, hadded,
      fun h => absurd rfl (h orderReq), fun _ => rfl⟩
  | fetchByRange page limit =>
    refine ⟨w.store.docs, [], ?_, forall2_keeps_refl _, by simp, fun _ => rfl, fun _ => rfl⟩
    simp only [step, List.append_nil]
    exact mongo_fetchByRange_docs drv env page limit w
  | assignByID id status =>
    rcases mongo_assignByID_cases drv id status w with ⟨hsame, _⟩ |
      ⟨_, _, o, hfound, hstatus, _, hdocs⟩
    · refine ⟨w.store.docs, [], ?_, forall2_keeps_refl _, by simp, fun _ => rfl, fun _ => rfl⟩
      simp only [step, List.append_nil]
      exact hsame
    · refine ⟨replaceId (ObjectIdHex id) { o with Status := "TAKEN" } w.store.docs, [], ?_,
        replaceId_keeps _ o _ hfound hstatus, by simp, fun _ => rfl,
        fun h => absurd rfl (h id status)⟩
      simp only [step, List.append_nil]
      exact hdocs

/-- One call over the mongo repository makes the stored orders evolve. -/
theorem mongo_step_evolves {κ : Type} (drv : Driver) (maps : MapsLibrary κ) (env : Env)
    (c : Call) (w : World Database) :
    Evolves w.store.docs (step (mongoUsecase drv) maps env c w).store.docs := by
  obtain ⟨kept, added, hdocs, hkept, hadded, _, _⟩ := mongo_step_docs drv maps env c w
  exact ⟨kept, added, hdocs, hkept, hadded⟩

/-- Orders that evolve from orders with status UNASSIGNED or TAKEN have status
UNASSIGNED or TAKEN. -/
theorem evolves_status (before after : List Order) (h : Evolves before after)
    (hb : ∀ o ∈ before, o.Status = "UNASSIGNED" ∨ o.Status = "TAKEN") :
    ∀ o ∈ after, o.Status = "UNASSIGNED" ∨ o.Status = "TAKEN" := by
  obtain ⟨kept, added, hdocs, hkept, hadded⟩ := h
  have hk : ∀ o ∈ kept, o.Status = "UNASSIGNED" ∨ o.Status = "TAKEN" := by
    clear hdocs
    induction hkept with
    | nil => intro o ho; simp at ho
    | @cons a b l1 l2 hab _ ih =>
      intro o ho
      simp only [List.mem_cons] at ho
      rcases ho with ho | ho
      · rw [ho]
        rcases hab.2.2 with hs | ⟨_, ht⟩
        · rw [hs]
          exact hb a (by simp)
        · exact Or.inr ht
      · exact ih (fun x hx => hb x (by simp [hx])) o ho
  intro o ho
  rw [hdocs, List.mem_append] at ho
  rcases ho with ho | ho
  · exact hk o ho
  · exact Or.inl (hadded o ho)

/-- Every sequence of calls over the mongo repository keeps the statuses
within UNASSIGNED and TAKEN. -/
theorem mongo_run_status {κ : Type} (drv : Driver) (maps : MapsLibrary κ) (env : Env)
    (cs : List Call) (w : World Database)
    (hw : ∀ o ∈ w.store.docs, o.Status = "UNASSIGNED" ∨ o.Status = "TAKEN") :
    ∀ o ∈ (run (mongoUsecase drv) maps env cs w).store.docs,
      o.Status = "UNASSIGNED" ∨ o.Status = "TAKEN" := by
  induction cs generalizing w with
  | nil => exact hw
  | cons c rest ih =>
    exact ih (step (mongoUsecase drv) maps env c w)
      (evolves_status _ _ (mongo_step_evolves drv maps env c w) hw)

/-- One call over the mongo repository leaves an order that is TAKEN in place:
it is still what is found for its id. -/
theorem mongo_step_taken {κ : Type} (drv : Driver) (maps : MapsLibrary κ) (env : Env)
    (c : Call) (w : World Database) (key : String) (o : Order)
    (hfound : findId key w.store.docs = some o) (htaken : o.Status = "TAKEN") :
    findId key (step (mongoUsecase drv) maps env c w).store.docs = some o := by
  cases c with
  | store orderReq =>
    obtain ⟨added, hdocs, _⟩ := mongo_store_docs drv maps env orderReq w
    simp only [step]
    rw [hdocs]
    exact findId_append key _ added o hfound
  | fetchByRange page limit =>
    simp only [step]
    rw [mongo_fetchByRange_docs drv env page limit w]
    exact hfound
  | assignByID id status =>
    simp only [step]
    rcases mongo_assignByID_cases drv id status w with ⟨hsame, _⟩ |
      ⟨_, _, o2, hfound2, hstatus2, _, hdocs⟩
    · rw [hsame]
      exact hfound
    · have hne : key ≠ ObjectIdHex id := by
        intro heq
        rw [heq, hfound2] at hfound
        have ho : o2 = o := Option.some.inj hfound
        rw [ho, htaken] at hstatus2
        exact absurd hstatus2 (by decide)
      rw [hdocs, findId_replaceId_other key (ObjectIdHex id) { o2 with Status := "TAKEN" }
        w.store.docs (findId_id (ObjectIdHex id) w.store.docs o2 hfound2) hne]
      exact hfound

/-- Every sequence of calls over the mongo repository leaves an order that is
TAKEN in place. -/
theorem mongo_run_taken {κ : Type} (drv : Driver) (maps : MapsLibrary κ) (env : Env)
    (cs : List Call) (w : World Database) (key : String) (o : Order)
    (hfound : findId key w.store.docs = some o) (htaken : o.Status = "TAKEN") :
    findId key (run (mongoUsecase drv) maps env cs w).store.docs = some o := by
  induction cs generalizing w with
  | nil => exact hfound
  | cons c rest ih =>
    exact ih (step (mongoUsecase drv) maps env c w)
      (mongo_step_taken drv maps env c w key o hfound htaken)

/-- Claim C14.  Over the mongo repository on a database that starts empty,
after every sequence of `Store`, `FetchByRange` and `AssignByID` calls: each
stored order has status UNASSIGNED or TAKEN; one more call keeps every stored
order in place with its ID and Distance, its status unchanged or moved from
UNASSIGNED to TAKEN, and adds behind them only UNASSIGNED orders; only `Store`
adds orders and only `AssignByID` changes one; an order that is TAKEN is left
exactly as it is; and once `AssignByID id "TAKEN"` has succeeded, the same call
after any further sequence of calls fails with "Order is already assigned". -/
theorem order_life_cycle {κ : Type} (drv : Driver) (maps : MapsLibrary κ) (env : Env)
    (cs : List Call) :
    (∀ o ∈ (run (mongoUsecase drv) maps env cs mongoWorld0).store.docs,
      o.Status = "UNASSIGNED" ∨ o.Status = "TAKEN") ∧
    (∀ c : Call, ∃ kept added,
      (run (mongoUsecase drv) maps env (cs ++ [c]) mongoWorld0).store.docs = kept ++ added ∧
      List.Forall₂ Keeps (run (mongoUsecase drv) maps env cs mongoWorld0).store.docs kept ∧
      (∀ o ∈ added, o.Status = "UNASSIGNED") ∧
      ((∀ orderReq, c ≠ Call.store orderReq) → added = []) ∧
      ((∀ id status, c ≠ Call.assignByID id status) →
        kept = (run (mongoUsecase drv) maps env cs mongoWorld0).store.docs)) ∧
    (∀ a b : Order, Keeps a b → a.Status = "TAKEN" → b = a) ∧
    (∀ (id : String) (m : StringMap) (cs2 : List Call),
      ((mongoUsecase drv).AssignByID id "TAKEN"
        (run (mongoUsecase drv) maps env cs mongoWorld0)).1 = Outcome.returned (some m, none) →
      ((mongoUsecase drv).AssignByID id "TAKEN"
        (run (mongoUsecase drv) maps env (cs ++ Call.assignByID id "TAKEN" :: cs2)
          mongoWorld0)).1 =
        Outcome.returned (none, some "Order is already assigned")) := by
  refine ⟨?_, ?_, keeps_taken, ?_⟩
  · exact mongo_run_status drv maps env cs mongoWorld0 (by intro o ho; simp [mongoWorld0,
      emptyDatabase] at ho)
  · intro c
    rw [run_append]
    exact mongo_step_docs drv maps env c _
  · intro id m cs2 hsuccess
    have hrun : run (mongoUsecase drv) maps env (cs ++ Call.assignByID id "TAKEN" :: cs2)
        mongoWorld0 =
        run (mongoUsecase drv) maps env cs2
          (step (mongoUsecase drv) maps env (Call.assignByID id "TAKEN")
            (run (mongoUsecase drv) maps env cs mongoWorld0)) := by
      unfold run
      rw [List.foldl_append, List.foldl_cons]
    rw [hrun]
    rcases mongo_assignByID_cases drv id "TAKEN" (run (mongoUsecase drv) maps env cs mongoWorld0)
      with ⟨_, hfail⟩ | ⟨_, hvalid, o, hfound, _, _, hdocs⟩
    · exact absurd hsuccess (hfail m)
    · have hid : o.ID = ObjectIdHex id := findId_id _ _ _ hfound
      have hfound1 : findId (ObjectIdHex id)
          (step (mongoUsecase drv) maps env (Call.assignByID id "TAKEN")
            (run (mongoUsecase drv) maps env cs mongoWorld0)).store.docs
          = some { o with Status := "TAKEN" } := by
        simp only [step]
        rw [hdocs]
        exact findId_replaceId_same (ObjectIdHex id) { o with Status := "TAKEN" } o _ hid hfound
      have hfound2 := mongo_run_taken drv maps env cs2 _ (ObjectIdHex id)
        { o with Status := "TAKEN" } hfound1 rfl
      have htaken : ("TAKEN" : String) ≠ "UNASSIGNED" := by decide
      rw [mongo_assignByID_assigned drv id _ { o with Status := "TAKEN" } hvalid hfound2
        htaken]

/-- Claim C14 at a concrete sequence: an order is stored over the stub driver,
which draws the object id of twelve characters `0`, it is assigned by the
hexadecimal form of that id, and assigning it again fails. -/
theorem order_life_cycle_witness :
    ((mongoUsecase stubDriver).AssignByID "303030303030303030303030" "TAKEN"
      (run (mongoUsecase stubDriver) (stubMaps (testAnswer "OK")) testEnv
        [Call.store { Origin := ["1", "2"], Destination := ["3", "4"] }] mongoWorld0)).1 =
      Outcome.returned (some [("status", "SUCCESS")], none) ∧
    ((mongoUsecase stubDriver).AssignByID "303030303030303030303030" "TAKEN"
      (run (mongoUsecase stubDriver) (stubMaps (testAnswer "OK")) testEnv
        ([Call.store { Origin := ["1", "2"], Destination := ["3", "4"] }] ++
          Call.assignByID "303030303030303030303030" "TAKEN" :: [])
        mongoWorld0)).1 =
      Outcome.returned (none, some "Order is already assigned") ∧
    (run (mongoUsecase stubDriver) (stubMaps (testAnswer "OK")) testEnv
        ([Call.store { Origin := ["1", "2"], Destination := ["3", "4"] }] ++
          Call.assignByID "303030303030303030303030" "TAKEN" :: [])
        mongoWorld0).store.docs =
      [{ ID := "000000000000", Distance := 30539, Status := "TAKEN" }] :=
  ⟨by decide,
    (order_life_cycle stubDriver (stubMaps (testAnswer "OK")) testEnv
      [Call.store { Origin := ["1", "2"], Destination := ["3", "4"] }]).2.2.2
      "303030303030303030303030" [("status", "SUCCESS")] [] (by decide),
    by decide⟩

end OrderService
